import Mathlib

/-!
Shallow embedding of the opentrons hardware-control motion and
liquid-handling engine (`src/api/src/opentrons/hardware_control/__init__.py`,
backend semantics from `simulator.py`).

Machine numbers are embedded as rationals.  Python's mutate-then-raise
exception discipline is embedded by every operation returning an
`Except HwError α` result *together with* the (possibly mutated) state, so a
raised exception still carries all side effects performed before the raise.

Parts of the repository that the claims depend on but that are not present
under `src/` (`opentrons/types.py`, `hardware_control/pipette.py`,
`util/linal.py`, `config/robot_configs.py`) are modelled from the spec; each
such definition carries a doc comment starting `Modelled from the spec:`.
-/

namespace OT

/-- Modelled from the spec: the six physical actuator axes (spec section 3;
`hardware_control/types.py` is not under `src/`). -/
inductive Axis
  | X | Y | Z | A | B | C
deriving DecidableEq, Repr

/-- Modelled from the spec: the two pipette mounts (spec section 3;
`opentrons/types.py` is not under `src/`). -/
inductive Mount
  | LEFT | RIGHT
deriving DecidableEq, Repr

/-- Modelled from the spec: gantry axes are X, Y and the two mount z axes
(spec section 3: "partitioned into gantry axes (X, Y, and one of Z/A
depending on mount) and plunger axes (one of B/C per mount)"). -/
def Axis.gantry_axes : List Axis := [.X, .Y, .Z, .A]

/-- Boolean form of `ax in Axis.gantry_axes()`. -/
def Axis.is_gantry : Axis → Bool
  | .X | .Y | .Z | .A => true
  | .B | .C => false

/-- Modelled from the spec: which z axis belongs to a mount ("one of Z/A
depending on mount"); left carries Z, right carries A. -/
def Axis.by_mount : Mount → Axis
  | .LEFT => .Z
  | .RIGHT => .A

/-- Modelled from the spec: which plunger axis belongs to a mount ("one of
B/C per mount"); left carries B, right carries C. -/
def Axis.of_plunger : Mount → Axis
  | .LEFT => .B
  | .RIGHT => .C

/-- Index of an axis, as Python's `Axis.value` (enumeration order XYZABC). -/
def Axis.value : Axis → Nat
  | .X => 0 | .Y => 1 | .Z => 2 | .A => 3 | .B => 4 | .C => 5

/-- Modelled from the spec: a deck-absolute 3-vector (`opentrons/types.py`
`Point` is not under `src/`); components default to 0 on construction. -/
structure Point where
  x : ℚ := 0
  y : ℚ := 0
  z : ℚ := 0
deriving DecidableEq, Repr

/-- Indexing a `Point` as Python indexes the named tuple (0 = x, 1 = y,
2 = z; other indices are unreachable at every use site and give 0). -/
def Point.get : Point → Nat → ℚ
  | p, 0 => p.x
  | p, 1 => p.y
  | p, 2 => p.z
  | _, _ => 0

/-- Replace the z component, as Python's `xyz._replace(z=...)`. -/
def Point.withZ (p : Point) (z : ℚ) : Point := { p with z := z }

/-- Modelled from the spec: which physical reference on a mount+instrument is
being positioned (spec section 3; `hardware_control/types.py` is not under
`src/`). -/
inductive CriticalPoint
  | MOUNT | NOZZLE | TIP | XY_CENTER
deriving DecidableEq, Repr

/-- Exceptions raised by the engine: `MustHomeError`, `PipetteNotAttachedError`,
Python `AssertionError` / `ValueError` / `KeyError` / `IndexError` /
`ZeroDivisionError`, and a failure raised by the backend move call (the
backend contract allows `move` to fail, spec section 4.1). -/
inductive HwError
  | mustHome
  | notAttached
  | assertionError
  | valueError
  | keyError
  | indexError
  | zeroDivision
  | backendFail
deriving DecidableEq, Repr

/-- A raw (smoothie-frame) position for all six axes, as the simulator's
`self._position` dict. -/
structure SmPos where
  x : ℚ
  y : ℚ
  z : ℚ
  a : ℚ
  b : ℚ
  c : ℚ
deriving DecidableEq, Repr

def SmPos.get : SmPos → Axis → ℚ
  | p, .X => p.x | p, .Y => p.y | p, .Z => p.z
  | p, .A => p.a | p, .B => p.b | p, .C => p.c

def SmPos.set : SmPos → Axis → ℚ → SmPos
  | p, .X, v => { p with x := v }
  | p, .Y, v => { p with y := v }
  | p, .Z, v => { p with z := v }
  | p, .A, v => { p with a := v }
  | p, .B, v => { p with b := v }
  | p, .C, v => { p with c := v }

/-- The simulator's fixed home vector (`simulator.py` `_HOME_POSITION`). -/
def HOME_POSITION : SmPos := ⟨418, 353, 218, 218, 19, 19⟩

/-- Apply a partial raw-target dict to a raw position, as the simulator's
`self._position.update(target_position)`. -/
def SmPos.updateWith (p : SmPos) (l : List (Axis × ℚ)) : SmPos :=
  l.foldl (fun acc kv => acc.set kv.1 kv.2) p

/-- Lookup in an association-list embedding of a Python `Dict[Axis, float]`. -/
def dlookup : List (Axis × ℚ) → Axis → Option ℚ
  | [], _ => none
  | (a, v) :: rest, b => if a = b then some v else dlookup rest b

/-- Set one key of an association-list dict (replace in place, else append),
matching Python dict assignment. -/
def dset : List (Axis × ℚ) → Axis → ℚ → List (Axis × ℚ)
  | [], a, v => [(a, v)]
  | (b, w) :: rest, a, v =>
      if b = a then (a, v) :: rest else (b, w) :: dset rest a v

/-- Python `dict.update`: merge the second dict into the first. -/
def dictUpdate (c : List (Axis × ℚ)) (new : List (Axis × ℚ)) :
    List (Axis × ℚ) :=
  new.foldl (fun acc kv => dset acc kv.1 kv.2) c

/-- Modelled from the spec: a calibration-probe descriptor (spec section 3:
"approach axis, XY start offset, absolute Z approach height, probe
direction/distance"; the `HotSpot` type of `config/robot_configs.py` is not
under `src/`).  The axis field only ever holds X, Y or Z. -/
structure Hotspot where
  axis : Axis
  x_start_offs : ℚ
  y_start_offs : ℚ
  z_start_abs : ℚ
  probe_distance : ℚ
deriving DecidableEq, Repr

/-- Observable actions issued by the engine, recorded in order: a retraction
of a mount (`retract`, i.e. the backend `fast_home`), a relative move request
(`move_rel`), and a raw move command handed to the backend (`backend.move`
inside `_move`, recorded also when the backend then fails). -/
inductive Event
  | retractEv (mount : Mount) (margin : ℚ)
  | moveRelEv (mount : Mount) (delta : Point)
  | bkMoveEv (target : List (Axis × ℚ))
deriving DecidableEq, Repr

def Event.isMoveRel : Event → Bool
  | .moveRelEv _ _ => true
  | _ => false

def Event.isRetract : Event → Bool
  | .retractEv _ _ => true
  | _ => false

/-- Modelled from the spec: per-mount pipette state and immutable
configuration (spec section 3; `hardware_control/pipette.py` is not under
`src/`): plunger stop positions, pick-up distance, currents are opaque here,
the behavioural quirk flag, `has_tip`, `current_volume`,
`current_tip_length`, and the live instrument offset applied on top of the
gantry transform.  The per-action microliter-per-mm curves are opaque
positive-valued functions. -/
structure Pipette where
  has_tip : Bool
  current_tip_length : ℚ
  current_volume : ℚ
  max_volume : ℚ
  bottom : ℚ
  blow_out_pos : ℚ
  drop_tip_pos : ℚ
  pick_up_distance : ℚ
  model_offset : Point
  instrument_offset : Point
  needs_pickup_shake : Bool
  ul_per_mm_aspirate : ℚ → ℚ
  ul_per_mm_dispense : ℚ → ℚ

/-- Modelled from the spec: remaining headroom to max volume. -/
def Pipette.available_volume (p : Pipette) : ℚ :=
  p.max_volume - p.current_volume

/-- Modelled from the spec: whether adding a volume keeps the tip within its
configured max. -/
def Pipette.ok_to_add_volume (p : Pipette) (v : ℚ) : Prop :=
  p.current_volume + v ≤ p.max_volume

instance (p : Pipette) (v : ℚ) : Decidable (p.ok_to_add_volume v) := by
  unfold Pipette.ok_to_add_volume; infer_instance

def Pipette.set_current_volume (p : Pipette) (v : ℚ) : Pipette :=
  { p with current_volume := v }

def Pipette.add_current_volume (p : Pipette) (v : ℚ) : Pipette :=
  { p with current_volume := p.current_volume + v }

def Pipette.remove_current_volume (p : Pipette) (v : ℚ) : Pipette :=
  { p with current_volume := p.current_volume - v }

def Pipette.add_tip (p : Pipette) (tip_length : ℚ) : Pipette :=
  { p with has_tip := true, current_tip_length := tip_length }

def Pipette.remove_tip (p : Pipette) : Pipette :=
  { p with has_tip := false, current_tip_length := 0 }

def Pipette.update_instrument_offset (p : Pipette) (new_offset : Point) :
    Pipette :=
  { p with instrument_offset := new_offset }

/-- Modelled from the spec: the pipette's critical point (spec sections 3 and
4.3: the offset applied during every move, which "degrades TIP to NOZZLE if
no tip is attached"; the model offset plus the live instrument offset, with
the tip length lowering z when a tip is present). -/
def Pipette.critical_point (p : Pipette) (cp_override : Option CriticalPoint) :
    Point :=
  let tip_length : ℚ :=
    if ¬ p.has_tip ∨ cp_override = some .NOZZLE then 0
    else p.current_tip_length
  ⟨p.model_offset.x + p.instrument_offset.x,
   p.model_offset.y + p.instrument_offset.y,
   p.model_offset.z + p.instrument_offset.z - tip_length⟩

/-- Modelled from the spec: the tip-probe configuration block (spec sections
3 and 4.5; `config/robot_configs.py` is not under `src/`): the nominal
center, the bounce distance, the crossover z clearance, and the fixed
ordered hotspot set, which the missing `calculate_tip_probe_hotspots`
derives from the attached tip length. -/
structure TipProbeConfig where
  center : Point
  bounce_distance : ℚ
  crossover_clearance : ℚ
  hotspots : ℚ → List Hotspot

/-- Modelled from the spec: the robot configuration consumed by the engine
(spec section 6): the per-mount mount offset, the gantry calibration as a
forward affine map to raw coordinates and its reverse (spec section 4.2;
`util/linal.py` is not under `src/`), and the tip-probe block. -/
structure Config where
  mount_offset : Point
  gantry_fwd : Point → Point
  gantry_rev : Point → Point
  tip_probe : TipProbeConfig

/-- The full mutable state of the `API` object plus the simulator-semantics
backend: raw backend position, a flag making the next backend `move` calls
raise (the backend contract allows `move` to fail), the configuration, the
position cache `_current_position`, the two attached pipettes,
`_last_moved_mount`, and the recorded event trace. -/
structure ApiState where
  backend_pos : SmPos
  move_fails : Bool
  config : Config
  cache : List (Axis × ℚ)
  left_pip : Option Pipette
  right_pip : Option Pipette
  last_moved_mount : Option Mount
  events : List Event

def ApiState.pipette (st : ApiState) : Mount → Option Pipette
  | .LEFT => st.left_pip
  | .RIGHT => st.right_pip

def ApiState.setPipette (st : ApiState) : Mount → Pipette → ApiState
  | .LEFT, p => { st with left_pip := some p }
  | .RIGHT, p => { st with right_pip := some p }

/-- `API._deck_from_smoothie`: rebuild the deck-frame cache from a full raw
position: the right mount's (X, Y, A) triple and the left mount's (X, Y, Z)
triple each go through the reverse gantry transform; X and Y come from the
right triple; plunger axes pass through untransformed. -/
def _deck_from_smoothie (cfg : Config) (sm : SmPos) : List (Axis × ℚ) :=
  let right := cfg.gantry_rev ⟨sm.get .X, sm.get .Y, sm.get (Axis.by_mount .RIGHT)⟩
  let left := cfg.gantry_rev ⟨sm.get .X, sm.get .Y, sm.get (Axis.by_mount .LEFT)⟩
  [(Axis.X, right.x), (Axis.Y, right.y),
   (Axis.by_mount .RIGHT, right.z), (Axis.by_mount .LEFT, left.z),
   (Axis.B, sm.get .B), (Axis.C, sm.get .C)]

/-- `API._critical_point_for`: the pipette's critical point if a pipette is
attached and the override is not MOUNT, else the zero offset. -/
def _critical_point_for (st : ApiState) (mount : Mount)
    (cp_override : Option CriticalPoint) : Point :=
  match st.pipette mount with
  | some pip =>
      if cp_override ≠ some .MOUNT then pip.critical_point cp_override
      else ⟨0, 0, 0⟩
  | none => ⟨0, 0, 0⟩

/-- `API.current_position`: MustHome on an empty cache, else the cached
deck position of the mount's four axes with the mount offset and the
resolved critical-point offset applied (missing cache keys are Python
`KeyError`s). -/
def current_position (st : ApiState) (mount : Mount)
    (critical_point : Option CriticalPoint := none) :
    Except HwError (List (Axis × ℚ)) × ApiState :=
  if st.cache = [] then (.error .mustHome, st)
  else
    let offset : Point :=
      if mount = .RIGHT then ⟨0, 0, 0⟩ else st.config.mount_offset
    let z_ax := Axis.by_mount mount
    let plunger_ax := Axis.of_plunger mount
    let cp := _critical_point_for st mount critical_point
    match dlookup st.cache .X, dlookup st.cache .Y,
        dlookup st.cache z_ax, dlookup st.cache plunger_ax with
    | some x, some y, some z, some pl =>
        (.ok [(Axis.X, x + offset.x + cp.x), (Axis.Y, y + offset.y + cp.y),
              (z_ax, z + offset.z + cp.z), (plunger_ax, pl)], st)
    | _, _, _, _ => (.error .keyError, st)

/-- `API.gantry_position`: `current_position` restricted to X, Y and the
mount's z axis, returned as a `Point`. -/
def gantry_position (st : ApiState) (mount : Mount)
    (critical_point : Option CriticalPoint := none) :
    Except HwError Point × ApiState :=
  match current_position st mount critical_point with
  | (.error e, st') => (.error e, st')
  | (.ok cur, st') =>
      (.ok ⟨(dlookup cur .X).getD 0, (dlookup cur .Y).getD 0,
            (dlookup cur (Axis.by_mount mount)).getD 0⟩, st')

/-- The `for idx, ax in enumerate(target_position.keys())` fusion loop of
`API._move`: gantry entries are replaced by the transformed value at their
enumeration index (IndexError past the transformed triple), other entries
pass through; the result is the raw dict handed to the backend. -/
def fuseTransformed (transformed : Point) :
    Nat → List (Axis × ℚ) → Except HwError (List (Axis × ℚ))
  | _, [] => .ok []
  | idx, (ax, pos) :: rest =>
      if ax.is_gantry then
        if idx ≥ 3 then .error .indexError
        else
          match fuseTransformed transformed (idx + 1) rest with
          | .error e => .error e
          | .ok l => .ok ((ax, transformed.get idx) :: l)
      else
        match fuseTransformed transformed (idx + 1) rest with
        | .error e => .error e
        | .ok l => .ok ((ax, pos) :: l)

/-- `API._move`, the internal motion worker: collect the gantry components of
the ordered target, reject unless exactly three are present (ValueError,
before any backend command), apply the forward gantry transform, fuse the
transformed triple with the plunger entries, then issue the backend move
(recorded as an event even when the backend then raises); on backend failure
clear the *entire* cache and re-raise, on success merge the deck-frame
target into the cache.  Bounds violations are logged only in the source and
have no state effect, so they do not appear here. -/
def _move (st : ApiState) (target_position : List (Axis × ℚ))
    (_home_flagged_axes : Bool := true) : Except HwError Unit × ApiState :=
  let to_transform :=
    (target_position.filter (fun kv => kv.1.is_gantry)).map Prod.snd
  if to_transform.length ≠ 3 then (.error .valueError, st)
  else
    let transformed := st.config.gantry_fwd
      ⟨to_transform.getD 0 0, to_transform.getD 1 0, to_transform.getD 2 0⟩
    match fuseTransformed transformed 0 target_position with
    | .error e => (.error e, st)
    | .ok smoothie_pos =>
        let st1 := { st with events := st.events ++ [Event.bkMoveEv smoothie_pos] }
        if st1.move_fails then
          (.error .backendFail, { st1 with cache := [] })
        else
          (.ok (), { st1 with
            backend_pos := st1.backend_pos.updateWith smoothie_pos,
            cache := dictUpdate st1.cache target_position })

/-- `API.retract`: rapid home of the mount's z axis via the backend
`fast_home` (simulator semantics: the axis snaps to its home position and the
full raw position is returned), then the cache is rebuilt wholesale. -/
def retract (st : ApiState) (mount : Mount) (margin : ℚ) :
    Except HwError Unit × ApiState :=
  let ax := Axis.by_mount mount
  let new_pos := st.backend_pos.set ax (HOME_POSITION.get ax)
  (.ok (), { st with
    backend_pos := new_pos,
    cache := _deck_from_smoothie st.config new_pos,
    events := st.events ++ [Event.retractEv mount margin] })

/-- `API._cache_and_maybe_retract_mount`: if a last-moved mount exists and
differs from the target mount, retract it by the fixed 10-unit margin; then
record the target mount as last-moved. -/
def _cache_and_maybe_retract_mount (st : ApiState) (mount : Mount) : ApiState :=
  let st1 :=
    match st.last_moved_mount with
    | some lm => if mount ≠ lm then (retract st lm 10).2 else st
    | none => st
  { st1 with last_moved_mount := some mount }

/-- `API.move_to`: MustHome on an empty cache; otherwise run the
mount-switch retraction bookkeeping, resolve the mount offset and critical
point, and delegate the three deck-frame gantry coordinates to `_move`. -/
def move_to (st : ApiState) (mount : Mount) (abs_position : Point)
    (critical_point : Option CriticalPoint := none) :
    Except HwError Unit × ApiState :=
  if st.cache = [] then (.error .mustHome, st)
  else
    let st1 := _cache_and_maybe_retract_mount st mount
    let offset : Point :=
      if mount = .LEFT then st1.config.mount_offset else ⟨0, 0, 0⟩
    let cp := _critical_point_for st1 mount critical_point
    let z_axis := Axis.by_mount mount
    _move st1
      [(Axis.X, abs_position.x - offset.x - cp.x),
       (Axis.Y, abs_position.y - offset.y - cp.y),
       (z_axis, abs_position.z - offset.z - cp.z)]

/-- `API.move_rel`: MustHome on an empty cache; otherwise run the
mount-switch retraction bookkeeping, then move to the cached position plus
the delta (a missing cache key during target construction is caught and
re-raised as MustHome).  The relative move request is recorded as an
event. -/
def move_rel (st : ApiState) (mount : Mount) (delta : Point) :
    Except HwError Unit × ApiState :=
  if st.cache = [] then (.error .mustHome, st)
  else
    let st1 := _cache_and_maybe_retract_mount st mount
    let st2 := { st1 with events := st1.events ++ [Event.moveRelEv mount delta] }
    let z_axis := Axis.by_mount mount
    match dlookup st2.cache .X, dlookup st2.cache .Y,
        dlookup st2.cache z_axis with
    | some x, some y, some z =>
        _move st2
          [(Axis.X, x + delta.x), (Axis.Y, y + delta.y), (z_axis, z + delta.z)]
    | _, _, _ => (.error .mustHome, st2)

/-- `API._move_plunger`: build a four-axis target from the cached gantry
position and the requested plunger distance and hand it to `_move` with
`home_flagged_axes=False`.  The cache reads happen before the enclosing
`try`, so an empty cache raises a plain KeyError (not MustHome). -/
def _move_plunger (st : ApiState) (mount : Mount) (dist : ℚ) :
    Except HwError Unit × ApiState :=
  let z_axis := Axis.by_mount mount
  let pl_axis := Axis.of_plunger mount
  match dlookup st.cache .X, dlookup st.cache .Y, dlookup st.cache z_axis with
  | some x, some y, some z =>
      (match _move st [(Axis.X, x), (Axis.Y, y), (z_axis, z), (pl_axis, dist)]
          false with
       | (.error .keyError, st') => (.error .mustHome, st')
       | r => r)
  | _, _, _ => (.error .keyError, st)

/-- `API.home`: home the requested axes (all six when the argument is absent
or the empty list, matching Python truthiness), split into gantry and
plunger groups issued separately to the backend (simulator semantics: each
homed axis snaps to the home vector and the full raw position is returned),
then rebuild the cache wholesale. -/
def home (st : ApiState) (axes : Option (List Axis) := none) :
    Except HwError Unit × ApiState :=
  let checked_axes :=
    match axes with
    | none => [Axis.X, .Y, .Z, .A, .B, .C]
    | some [] => [Axis.X, .Y, .Z, .A, .B, .C]
    | some l => l
  let new_pos :=
    checked_axes.foldl (fun (p : SmPos) ax => p.set ax (HOME_POSITION.get ax))
      st.backend_pos
  (.ok (), { st with
    backend_pos := new_pos,
    cache := _deck_from_smoothie st.config new_pos })

/-- `API._plunger_position`: microliters through the per-action
microliter-per-mm curve, offset by the configured bottom stop, rounded to 6
decimal places. -/
def _plunger_position (instr : Pipette) (ul : ℚ) (aspirating : Bool) : ℚ :=
  let per_mm := if aspirating then instr.ul_per_mm_aspirate ul
                else instr.ul_per_mm_dispense ul
  let mm := ul / per_mm
  (round ((mm + instr.bottom) * 1000000) : ℤ) / 1000000

/-- `API.aspirate`: NotAttached without a pipette; the volume defaults to the
remaining headroom; an assertion rejects volumes beyond the headroom; volume
0 is a no-op; otherwise move the plunger to the position for the increased
volume, resetting the current volume to 0 and re-raising if the move fails,
and crediting the aspirated volume on success. -/
def aspirate (st : ApiState) (mount : Mount) (volume : Option ℚ := none) :
    Except HwError Unit × ApiState :=
  match st.pipette mount with
  | none => (.error .notAttached, st)
  | some this_pipette =>
      let asp_vol :=
        match volume with
        | none => this_pipette.available_volume
        | some v => v
      if ¬ this_pipette.ok_to_add_volume asp_vol then
        (.error .assertionError, st)
      else if asp_vol = 0 then (.ok (), st)
      else
        let dist := _plunger_position this_pipette
          (this_pipette.current_volume + asp_vol) true
        match _move_plunger st mount dist with
        | (.error e, st') =>
            (.error e,
             st'.setPipette mount (this_pipette.set_current_volume 0))
        | (.ok _, st') =>
            (.ok (),
             st'.setPipette mount
               (this_pipette.add_current_volume asp_vol))

/-- `API.dispense`: NotAttached without a pipette; the volume defaults to the
entire current volume and is clamped to it (never a negative dispense);
volume 0 is a no-op; otherwise move the plunger to the position for the
decreased volume, resetting the current volume to 0 and re-raising if the
move fails, and debiting the dispensed volume on success. -/
def dispense (st : ApiState) (mount : Mount) (volume : Option ℚ := none) :
    Except HwError Unit × ApiState :=
  match st.pipette mount with
  | none => (.error .notAttached, st)
  | some this_pipette =>
      let disp_vol0 :=
        match volume with
        | none => this_pipette.current_volume
        | some v => v
      let disp_vol := min this_pipette.current_volume disp_vol0
      if disp_vol = 0 then (.ok (), st)
      else
        let dist := _plunger_position this_pipette
          (this_pipette.current_volume - disp_vol) false
        match _move_plunger st mount dist with
        | (.error e, st') =>
            (.error e,
             st'.setPipette mount (this_pipette.set_current_volume 0))
        | (.ok _, st') =>
            (.ok (),
             st'.setPipette mount
               (this_pipette.remove_current_volume disp_vol))

/-- `API.blow_out`: NotAttached without a pipette; drive the plunger to the
configured blow-out stop and, via `finally`, zero the current volume on
every exit path, failure included. -/
def blow_out (st : ApiState) (mount : Mount) :
    Except HwError Unit × ApiState :=
  match st.pipette mount with
  | none => (.error .notAttached, st)
  | some this_pipette =>
      match _move_plunger st mount this_pipette.blow_out_pos with
      | (.error e, st') =>
          (.error e,
           st'.setPipette mount (this_pipette.set_current_volume 0))
      | (.ok _, st') =>
          (.ok (),
           st'.setPipette mount (this_pipette.set_current_volume 0))

/-- The press/backup loop of `API.pick_up_tip` (the `for i in range(presses)`
body): each press moves the mount down by
`pick_up_distance + increment * i` via `move_rel` under a scoped current
override (current control is a no-op in the simulator backend), then backs
up by the same distance. -/
def pickUpPresses (mount : Mount) (pick_up_distance increment : ℚ) :
    List Nat → ApiState → Except HwError Unit × ApiState
  | [], st => (.ok (), st)
  | i :: rest, st =>
      let dist := -1 * pick_up_distance + -1 * increment * (i : ℚ)
      match move_rel st mount ⟨0, 0, dist⟩ with
      | (.error e, st') => (.error e, st')
      | (.ok _, st1) =>
          match move_rel st1 mount ⟨0, 0, -dist⟩ with
          | (.error e, st') => (.error e, st')
          | (.ok _, st2) => pickUpPresses mount pick_up_distance increment rest st2

/-- `API._shake_off_tips`: the fixed four-move shake sequence (left by the
shake distance, right by twice the distance, back left to center, then up
by the release distance). -/
def _shake_off_tips (st : ApiState) (mount : Mount) :
    Except HwError Unit × ApiState :=
  let d : ℚ := 9 / 4      -- SHAKE_OFF_TIPS_DISTANCE = 2.25
  match move_rel st mount ⟨-d, 0, 0⟩ with
  | (.error e, st') => (.error e, st')
  | (.ok _, st1) =>
      match move_rel st1 mount ⟨2 * d, 0, 0⟩ with
      | (.error e, st') => (.error e, st')
      | (.ok _, st2) =>
          match move_rel st2 mount ⟨-d, 0, 0⟩ with
          | (.error e, st') => (.error e, st')
          | (.ok _, st3) =>
              move_rel st3 mount ⟨0, 0, 20⟩   -- DROP_TIP_RELEASE_DISTANCE

/-- `API.pick_up_tip`: asserts a pipette is attached with no tip; drives the
plunger to bottom; runs the press/backup cycles; registers the tip with
volume 0; shakes twice for pipettes with the pickup-shake quirk; finally
retracts the mount by the pick-up distance. -/
def pick_up_tip (st : ApiState) (mount : Mount) (tip_length : ℚ)
    (presses : Nat := 3) (increment : ℚ := 1) :
    Except HwError Unit × ApiState :=
  match st.pipette mount with
  | none => (.error .assertionError, st)
  | some instr =>
      if instr.has_tip then (.error .assertionError, st)
      else
        match _move_plunger st mount instr.bottom with
        | (.error e, st') => (.error e, st')
        | (.ok _, st1) =>
            match pickUpPresses mount instr.pick_up_distance increment
                (List.range presses) st1 with
            | (.error e, st') => (.error e, st')
            | (.ok _, st2) =>
                let st3 := st2.setPipette mount
                  ((instr.add_tip tip_length).set_current_volume 0)
                if instr.needs_pickup_shake then
                  match _shake_off_tips st3 mount with
                  | (.error e, st') => (.error e, st')
                  | (.ok _, st4) =>
                      match _shake_off_tips st4 mount with
                      | (.error e, st') => (.error e, st')
                      | (.ok _, st5) => retract st5 mount instr.pick_up_distance
                else retract st3 mount instr.pick_up_distance

/-- `API.drop_tip` (with `home_after=True`): asserts a pipette with a tip;
plunger to bottom, then to the drop-tip stop, one shake cycle, volume zeroed
and tip state cleared, then a plunger fast-home with a safety margin equal
to the bottom/drop-tip gap followed by a plunger move to that margin. -/
def drop_tip (st : ApiState) (mount : Mount) :
    Except HwError Unit × ApiState :=
  match st.pipette mount with
  | none => (.error .assertionError, st)
  | some instr =>
      if ¬ instr.has_tip then (.error .assertionError, st)
      else
        match _move_plunger st mount instr.bottom with
        | (.error e, st') => (.error e, st')
        | (.ok _, st1) =>
            match _move_plunger st1 mount instr.drop_tip_pos with
            | (.error e, st') => (.error e, st')
            | (.ok _, st2) =>
                match _shake_off_tips st2 mount with
                | (.error e, st') => (.error e, st')
                | (.ok _, st3) =>
                    let st4 := st3.setPipette mount
                      ((instr.set_current_volume 0).remove_tip)
                    let pl_axis := Axis.of_plunger mount
                    let new_pos := st4.backend_pos.set pl_axis
                      (HOME_POSITION.get pl_axis)
                    let st5 := { st4 with
                      backend_pos := new_pos,
                      cache := _deck_from_smoothie st4.config new_pos }
                    let safety_margin := |instr.bottom - instr.drop_tip_pos|
                    _move_plunger st5 mount safety_margin

/-- Arithmetic mean of a list of rationals, as Python's
`sum(vals)/len(vals)` (call sites guard the empty list). -/
def mean (l : List ℚ) : ℚ := l.sum / (l.length : ℚ)

/-- The measurement accumulator of `API._do_tp` (`new_pos`): the lists of
deck coordinates recorded so far for the X, Y and Z keys. -/
structure TPAcc where
  xs : List ℚ
  ys : List ℚ
  zs : List ℚ
deriving DecidableEq, Repr

/-- Collected measurements for one axis key (only X, Y and Z occur; the
other axes never index the accumulator at any call site). -/
def TPAcc.get : TPAcc → Axis → List ℚ
  | acc, .X => acc.xs
  | acc, .Y => acc.ys
  | acc, _ => acc.zs

/-- Append a measurement under one axis key. -/
def TPAcc.append (acc : TPAcc) : Axis → ℚ → TPAcc
  | .X, v => { acc with xs := acc.xs ++ [v] }
  | .Y, v => { acc with ys := acc.ys ++ [v] }
  | _, v => { acc with zs := acc.zs ++ [v] }

/-- The running best-estimate center of `API._do_tp` (`overridden_center`):
per axis, the mean of the collected measurements when exactly two have been
collected, else the nominal configured center component. -/
def overridden_center (nominal : Point) (acc : TPAcc) (ax : Axis) : ℚ :=
  let vals := acc.get ax
  if vals.length = 2 then mean vals else nominal.get ax.value

/-- A point with a single named component set, as Python's
`Point(**{hs.axis: bounce})` with the other components defaulting to 0. -/
def pointOnAxis : Axis → ℚ → Point
  | .X, v => ⟨v, 0, 0⟩
  | .Y, v => ⟨0, v, 0⟩
  | _, v => ⟨0, 0, v⟩

/-- One iteration of the hotspot loop of `API._do_tp`: place the approach
point from the running best-estimate center, move safely up, across and
down, invoke the backend probe primitive along the hotspot's axis (a Z
hotspot probes the mount's own z axis; simulator semantics: the probed raw
coordinate advances by the full probe distance and the cache is rebuilt from
the resulting raw position), record the resulting deck coordinate under the
hotspot's axis key, bounce back opposite the probe direction, and rise back
to the safe height. -/
def tp_step (st : ApiState) (acc : TPAcc) (mount : Mount) (hs : Hotspot)
    (safe_z : ℚ) : Except HwError Unit × ApiState × TPAcc :=
  let ax_en := hs.axis
  let nominal := st.config.tip_probe.center
  let x0 := overridden_center nominal acc .X + hs.x_start_offs
  let y0 := overridden_center nominal acc .Y + hs.y_start_offs
  let z0 := hs.z_start_abs
  match current_position st mount with
  | (.error e, st') => (.error e, st', acc)
  | (.ok pos, st0) =>
      let px := (dlookup pos .X).getD 0
      let py := (dlookup pos .Y).getD 0
      match move_to st0 mount ⟨px, py, safe_z⟩ with
      | (.error e, st') => (.error e, st', acc)
      | (.ok _, st1) =>
          match move_to st1 mount ⟨x0, y0, safe_z⟩ with
          | (.error e, st') => (.error e, st', acc)
          | (.ok _, st2) =>
              match move_to st2 mount ⟨x0, y0, z0⟩ with
              | (.error e, st') => (.error e, st', acc)
              | (.ok _, st3) =>
                  let to_probe :=
                    if ax_en = .Z then Axis.by_mount mount else ax_en
                  let probed := st3.backend_pos.set to_probe
                    (st3.backend_pos.get to_probe + hs.probe_distance)
                  let st4 := { st3 with
                    backend_pos := probed,
                    cache := _deck_from_smoothie st3.config probed }
                  match gantry_position st4 mount with
                  | (.error e, st') => (.error e, st', acc)
                  | (.ok xyz, st5) =>
                      let acc2 := acc.append ax_en (xyz.get ax_en.value)
                      let bounce := st5.config.tip_probe.bounce_distance *
                        (if hs.probe_distance > 0 then -1 else 1)
                      match move_rel st5 mount (pointOnAxis ax_en bounce) with
                      | (.error e, st') => (.error e, st', acc2)
                      | (.ok _, st6) =>
                          match move_to st6 mount (xyz.withZ safe_z) with
                          | (.error e, st') => (.error e, st', acc2)
                          | (.ok _, st7) => (.ok (), st7, acc2)

/-- The hotspot loop of `API._do_tp`, threading the state and the
measurement accumulator; a raised exception propagates with all side
effects kept. -/
def tp_loop (mount : Mount) (safe_z : ℚ) :
    List Hotspot → ApiState → TPAcc → Except HwError Unit × ApiState × TPAcc
  | [], st, acc => (.ok (), st, acc)
  | hs :: rest, st, acc =>
      match tp_step st acc mount hs safe_z with
      | (.error e, st', acc') => (.error e, st', acc')
      | (.ok _, st', acc') => tp_loop mount safe_z rest st' acc'

/-- `API._do_tp`: clear the live instrument offset to the zero point, derive
the hotspots from the current tip length, run the hotspot loop from the safe
crossover height, and return the per-axis arithmetic mean of all recorded
coordinates (an axis with no recorded coordinate would be a Python
ZeroDivisionError). -/
def _do_tp (st : ApiState) (mount : Mount) : Except HwError Point × ApiState :=
  match st.pipette mount with
  | none => (.error .assertionError, st)
  | some pip =>
      let st1 := st.setPipette mount (pip.update_instrument_offset ⟨0, 0, 0⟩)
      let hotspots := st1.config.tip_probe.hotspots pip.current_tip_length
      let safe_z := st1.config.tip_probe.crossover_clearance +
        st1.config.tip_probe.center.z
      match tp_loop mount safe_z hotspots st1 ⟨[], [], []⟩ with
      | (.error e, st', _) => (.error e, st')
      | (.ok _, st', acc) =>
          if acc.xs.length = 0 ∨ acc.ys.length = 0 ∨ acc.zs.length = 0 then
            (.error .zeroDivision, st')
          else
            (.ok ⟨mean acc.xs, mean acc.ys, mean acc.zs⟩, st')

/-- Python truthiness of an optional float: `None` and `0.0` are falsy. -/
def truthy : Option ℚ → Bool
  | none => false
  | some v => v ≠ 0

/-- The `finally` block of the `_assure_tip` scope inside
`API.locate_tip_probe_center`: remove the working tip and restore the
original one only when a (truthy) original tip length was saved. -/
def _assure_tip_restore (st3 : ApiState) (mount : Mount)
    (old_tip : Option ℚ) : ApiState :=
  match st3.pipette mount with
  | some p =>
      let p' := p.remove_tip
      st3.setPipette mount
        (if truthy old_tip then p'.add_tip (old_tip.getD 0) else p')
  | none => st3

/-- `API.locate_tip_probe_center`: asserts a pipette is attached; if the
pipette already has a tip and a (truthy) tip length is supplied, the
existing tip is removed; without a truthy tip length an assertion requires a
tip, whose recorded length is then used; the `_assure_tip` scope then
attaches a tip of the resolved length, runs `_do_tp`, and on every exit path
removes it and restores the original tip only when one with a truthy length
was present. -/
def locate_tip_probe_center (st : ApiState) (mount : Mount)
    (tip_length : Option ℚ := none) : Except HwError Point × ApiState :=
  match st.pipette mount with
  | none => (.error .assertionError, st)
  | some pip0 =>
      let st1 := if pip0.has_tip ∧ truthy tip_length then
          st.setPipette mount pip0.remove_tip
        else st
      let pip1 := if pip0.has_tip ∧ truthy tip_length then pip0.remove_tip
        else pip0
      if ¬ truthy tip_length ∧ ¬ pip1.has_tip then
        (.error .assertionError, st1)
      else
        let tl := if truthy tip_length then tip_length.getD 0
          else pip1.current_tip_length
        let old_tip : Option ℚ :=
          if pip1.has_tip then some pip1.current_tip_length else none
        let pip2 := (if pip1.has_tip then pip1.remove_tip else pip1).add_tip tl
        let st2 := st1.setPipette mount pip2
        let r := _do_tp st2 mount
        (r.1, _assure_tip_restore r.2 mount old_tip)

/-! Concrete fixtures used by the witnesses: an identity gantry calibration
(the simulator default), a symmetric hotspot set around the nominal center,
and a pipette on the right mount. -/

/-- A symmetric hotspot set: mirrored X and Y pairs and a Z hotspot aimed at
the nominal center (used by witnesses). -/
def stdHotspots : List Hotspot :=
  [⟨.X, -25, 0, 180, 50⟩, ⟨.X, 25, 0, 180, -50⟩,
   ⟨.Y, 0, -30, 180, 60⟩, ⟨.Y, 0, 30, 180, -60⟩,
   ⟨.Z, 0, 0, 222, -20⟩]

/-- Witness configuration: identity gantry transforms, a nonzero mount
offset, nominal tip-probe center (293, 155, 202). -/
def idConfig : Config where
  mount_offset := ⟨34, 0, 0⟩
  gantry_fwd := fun p => p
  gantry_rev := fun p => p
  tip_probe :=
    { center := ⟨293, 155, 202⟩
      bounce_distance := 5
      crossover_clearance := 10
      hotspots := fun _ => stdHotspots }

/-- Witness pipette (no tip attached). -/
def testPip : Pipette where
  has_tip := false
  current_tip_length := 0
  current_volume := 0
  max_volume := 300
  bottom := 2
  blow_out_pos := 0
  drop_tip_pos := -4
  pick_up_distance := 10
  model_offset := ⟨0, 0, -25⟩
  instrument_offset := ⟨1, -2, 3⟩
  needs_pickup_shake := false
  ul_per_mm_aspirate := fun _ => 19
  ul_per_mm_dispense := fun _ => 19

/-- Witness state: homed simulator, pipette on the right mount. -/
def baseState : ApiState where
  backend_pos := HOME_POSITION
  move_fails := false
  config := idConfig
  cache := _deck_from_smoothie idConfig HOME_POSITION
  left_pip := none
  right_pip := some testPip
  last_moved_mount := some .RIGHT
  events := []

/-- Witness pipette holding 50 microliters. -/
def pip50 : Pipette := { testPip with current_volume := 50 }

/-- Witness pipette with a 40-unit tip already attached. -/
def tipPip : Pipette := { testPip with has_tip := true, current_tip_length := 40 }

/-- Witness state: homed simulator, right pipette already carrying a tip. -/
def tipState : ApiState := { baseState with right_pip := some tipPip }

/-- Witness state: homed simulator, right pipette holding 50 microliters. -/
def vol50State : ApiState := { baseState with right_pip := some pip50 }

/-- Witness state: as `vol50State`, but the backend raises on the next move
command. -/
def vol50FailState : ApiState := { vol50State with move_fails := true }

/-- Decidable equality for `Except` results, used to evaluate concrete
runs. -/
instance exceptDecidableEq {ε α : Type} [DecidableEq ε] [DecidableEq α] :
    DecidableEq (Except ε α) := fun a b =>
  match a, b with
  | .error x, .error y =>
      if h : x = y then .isTrue (by rw [h]) else .isFalse (by simp [h])
  | .ok x, .ok y =>
      if h : x = y then .isTrue (by rw [h]) else .isFalse (by simp [h])
  | .error _, .ok _ => .isFalse (by simp)
  | .ok _, .error _ => .isFalse (by simp)

/-! Helper notions used by the statements and proofs. -/

/-- A fully populated position cache, in the entry order produced by
`_deck_from_smoothie`. -/
def fullCache (x y a z b c : ℚ) : List (Axis × ℚ) :=
  [(Axis.X, x), (Axis.Y, y), (Axis.A, a), (Axis.Z, z),
   (Axis.B, b), (Axis.C, c)]

/-- The deck-frame z value a full cache holds for a mount. -/
def mountZ (m : Mount) (a z : ℚ) : ℚ :=
  match m with
  | .LEFT => z
  | .RIGHT => a

/-- The plunger value a full cache holds for a mount. -/
def mountPl (m : Mount) (b c : ℚ) : ℚ :=
  match m with
  | .LEFT => b
  | .RIGHT => c

/-- The mount offset applied by `current_position` (zero for the right
mount). -/
def cpOffset (st : ApiState) (m : Mount) : Point :=
  if m = .RIGHT then ⟨0, 0, 0⟩ else st.config.mount_offset

/-- The mount offset applied symmetrically by `move_to` (subtracted) and
`current_position` (added): the configured offset for the left mount, zero
for the right. -/
def moff (st : ApiState) (m : Mount) : Point :=
  if m = .LEFT then st.config.mount_offset else ⟨0, 0, 0⟩

/-- The critical-point offset resolved with no override. -/
def cpoint (st : ApiState) (m : Mount) : Point :=
  _critical_point_for st m none

/-- The deck coordinate the simulator's noiseless probe records for one
hotspot during `_do_tp` (with the identity gantry calibration): the approach
coordinate on the hotspot's axis plus the full probe distance. -/
def hotspotMeasured (nominal : Point) (acc : TPAcc) (hs : Hotspot) : ℚ :=
  match hs.axis with
  | .X => overridden_center nominal acc .X + hs.x_start_offs + hs.probe_distance
  | .Y => overridden_center nominal acc .Y + hs.y_start_offs + hs.probe_distance
  | _ => hs.z_start_abs + hs.probe_distance

/-- The accumulator `_do_tp` builds over a hotspot list when every probe
records exactly the approach coordinate plus the probe distance. -/
def measuredAcc (nominal : Point) : TPAcc → List Hotspot → TPAcc
  | acc, [] => acc
  | acc, hs :: rest =>
      measuredAcc nominal
        (acc.append hs.axis (hotspotMeasured nominal acc hs)) rest

/-- Modelled from the spec: the running best-estimate center as the spec
words it — per axis, the mean of any measurements already collected in the
run, else the nominal configured center. To be compared with the code's
`overridden_center`, which takes the mean only when exactly two measurements
have been collected. -/
def spec_running_center (nominal : Point) (acc : TPAcc) (ax : Axis) : ℚ :=
  let vals := acc.get ax
  if vals = [] then nominal.get ax.value else mean vals

/-- A public mount-addressed operation of the engine other than the homing
operations (`home` and `retract`/`fast_home`): these are the operations that
may intervene between a motion failure and a position query without
re-homing. -/
inductive HwOp
  | currentPosOp (m : Mount) (cpo : Option CriticalPoint)
  | gantryPosOp (m : Mount)
  | moveToOp (m : Mount) (p : Point) (cpo : Option CriticalPoint)
  | moveRelOp (m : Mount) (d : Point)
  | aspirateOp (m : Mount) (v : Option ℚ)
  | dispenseOp (m : Mount) (v : Option ℚ)
  | blowOutOp (m : Mount)
  | pickUpTipOp (m : Mount) (tl : ℚ) (presses : Nat) (inc : ℚ)
  | dropTipOp (m : Mount)
  | locateOp (m : Mount) (tl : Option ℚ)

/-- Run one public operation for its state effect. -/
def runOp (st : ApiState) : HwOp → ApiState
  | .currentPosOp m cpo => (current_position st m cpo).2
  | .gantryPosOp m => (gantry_position st m).2
  | .moveToOp m p cpo => (move_to st m p cpo).2
  | .moveRelOp m d => (move_rel st m d).2
  | .aspirateOp m v => (aspirate st m v).2
  | .dispenseOp m v => (dispense st m v).2
  | .blowOutOp m => (blow_out st m).2
  | .pickUpTipOp m tl presses inc => (pick_up_tip st m tl presses inc).2
  | .dropTipOp m => (drop_tip st m).2
  | .locateOp m tl => (locate_tip_probe_center st m tl).2

/-- Run a sequence of public operations for their state effects. -/
def runOps (st : ApiState) (ops : List HwOp) : ApiState :=
  ops.foldl runOp st

/-- Two states agreeing on both attached pipettes. -/
def PipsEq (s1 s2 : ApiState) : Prop :=
  s1.left_pip = s2.left_pip ∧ s1.right_pip = s2.right_pip

/-- The relative-move records the press/backup loop of `pick_up_tip` issues
for a list of press indices: down by `pd + inc * i`, back up by the same
distance, written exactly as the source computes the signed distance. -/
def pressMoveRels (m : Mount) (pd inc : ℚ) : List Nat → List Event
  | [] => []
  | i :: rest =>
      Event.moveRelEv m ⟨0, 0, -1 * pd + -1 * inc * (i : ℚ)⟩ ::
      Event.moveRelEv m ⟨0, 0, -(-1 * pd + -1 * inc * (i : ℚ))⟩ ::
      pressMoveRels m pd inc rest

theorem fullCache_ne_nil (x y a z b c : ℚ) : fullCache x y a z b c ≠ [] := by
  simp [fullCache]

theorem _deck_from_smoothie_eq_fullCache (cfg : Config) (sm : SmPos) :
    _deck_from_smoothie cfg sm =
      fullCache (cfg.gantry_rev ⟨sm.x, sm.y, sm.a⟩).x
        (cfg.gantry_rev ⟨sm.x, sm.y, sm.a⟩).y
        (cfg.gantry_rev ⟨sm.x, sm.y, sm.a⟩).z
        (cfg.gantry_rev ⟨sm.x, sm.y, sm.z⟩).z sm.b sm.c := rfl

@[simp] theorem dlookup_fullCache_X (x y a z b c : ℚ) :
    dlookup (fullCache x y a z b c) .X = some x := rfl

@[simp] theorem dlookup_fullCache_Y (x y a z b c : ℚ) :
    dlookup (fullCache x y a z b c) .Y = some y := rfl

@[simp] theorem dlookup_fullCache_A (x y a z b c : ℚ) :
    dlookup (fullCache x y a z b c) .A = some a := by
  simp [fullCache, dlookup]

@[simp] theorem dlookup_fullCache_Z (x y a z b c : ℚ) :
    dlookup (fullCache x y a z b c) .Z = some z := by
  simp [fullCache, dlookup]

@[simp] theorem dlookup_fullCache_B (x y a z b c : ℚ) :
    dlookup (fullCache x y a z b c) .B = some b := by
  simp [fullCache, dlookup]

@[simp] theorem dlookup_fullCache_C (x y a z b c : ℚ) :
    dlookup (fullCache x y a z b c) .C = some c := by
  simp [fullCache, dlookup]

theorem dictUpdate_fullCache_left (x y a z b c u v w : ℚ) :
    dictUpdate (fullCache x y a z b c)
      [(Axis.X, u), (Axis.Y, v), (Axis.Z, w)] = fullCache u v a w b c := by
  simp [dictUpdate, fullCache, dset]

theorem dictUpdate_fullCache_right (x y a z b c u v w : ℚ) :
    dictUpdate (fullCache x y a z b c)
      [(Axis.X, u), (Axis.Y, v), (Axis.A, w)] = fullCache u v w z b c := by
  simp [dictUpdate, fullCache, dset]

theorem dictUpdate_fullCache_left4 (x y a z b c u v w t : ℚ) :
    dictUpdate (fullCache x y a z b c)
      [(Axis.X, u), (Axis.Y, v), (Axis.Z, w), (Axis.B, t)] =
      fullCache u v a w t c := by
  simp [dictUpdate, fullCache, dset]

theorem dictUpdate_fullCache_right4 (x y a z b c u v w t : ℚ) :
    dictUpdate (fullCache x y a z b c)
      [(Axis.X, u), (Axis.Y, v), (Axis.A, w), (Axis.C, t)] =
      fullCache u v w z b t := by
  simp [dictUpdate, fullCache, dset]

@[simp] theorem setPipette_cache (st : ApiState) (m : Mount) (p : Pipette) :
    (st.setPipette m p).cache = st.cache := by
  cases m <;> rfl

@[simp] theorem setPipette_events (st : ApiState) (m : Mount) (p : Pipette) :
    (st.setPipette m p).events = st.events := by
  cases m <;> rfl

@[simp] theorem setPipette_config (st : ApiState) (m : Mount) (p : Pipette) :
    (st.setPipette m p).config = st.config := by
  cases m <;> rfl

@[simp] theorem setPipette_move_fails (st : ApiState) (m : Mount) (p : Pipette) :
    (st.setPipette m p).move_fails = st.move_fails := by
  cases m <;> rfl

@[simp] theorem setPipette_backend_pos (st : ApiState) (m : Mount) (p : Pipette) :
    (st.setPipette m p).backend_pos = st.backend_pos := by
  cases m <;> rfl

@[simp] theorem setPipette_last_moved (st : ApiState) (m : Mount) (p : Pipette) :
    (st.setPipette m p).last_moved_mount = st.last_moved_mount := by
  cases m <;> rfl

@[simp] theorem pipette_setPipette_same (st : ApiState) (m : Mount) (p : Pipette) :
    (st.setPipette m p).pipette m = some p := by
  cases m <;> rfl

/-- Characterization of `_move` on a full cache, an (X, Y, mount-z) deck
target and a non-failing backend: the move succeeds, the fused raw command
is recorded and applied to the backend, and the deck target is merged into
the cache. -/
theorem _move_spec (st : ApiState) (m : Mount) (u v w x y a z b c : ℚ)
    (hcache : st.cache = fullCache x y a z b c)
    (hmf : st.move_fails = false) :
    _move st [(Axis.X, u), (Axis.Y, v), (Axis.by_mount m, w)] true =
      (.ok (), { st with
        events := st.events ++
          [Event.bkMoveEv
            [(Axis.X, (st.config.gantry_fwd ⟨u, v, w⟩).x),
             (Axis.Y, (st.config.gantry_fwd ⟨u, v, w⟩).y),
             (Axis.by_mount m, (st.config.gantry_fwd ⟨u, v, w⟩).z)]],
        backend_pos :=
          ((st.backend_pos.set .X (st.config.gantry_fwd ⟨u, v, w⟩).x).set .Y
              (st.config.gantry_fwd ⟨u, v, w⟩).y).set (Axis.by_mount m)
            (st.config.gantry_fwd ⟨u, v, w⟩).z,
        cache := match m with
          | .LEFT => fullCache u v a w b c
          | .RIGHT => fullCache u v w z b c }) := by
  cases m <;>
    simp [_move, fuseTransformed, Axis.is_gantry, hcache, hmf, Axis.by_mount,
      SmPos.updateWith, Point.get, dictUpdate_fullCache_left,
      dictUpdate_fullCache_right]

/-- Characterization of `_move` on a full cache with a failing backend: the
raw command is still recorded (the backend raised while executing it), the
error propagates, and the entire cache is cleared. -/
theorem _move_fail_spec (st : ApiState) (m : Mount) (u v w : ℚ)
    (hmf : st.move_fails = true) :
    _move st [(Axis.X, u), (Axis.Y, v), (Axis.by_mount m, w)] true =
      (.error .backendFail, { st with
        events := st.events ++
          [Event.bkMoveEv
            [(Axis.X, (st.config.gantry_fwd ⟨u, v, w⟩).x),
             (Axis.Y, (st.config.gantry_fwd ⟨u, v, w⟩).y),
             (Axis.by_mount m, (st.config.gantry_fwd ⟨u, v, w⟩).z)]],
        cache := [] }) := by
  cases m <;>
    simp [_move, fuseTransformed, Axis.is_gantry, hmf, Axis.by_mount,
      Point.get]

/-- Characterization of `_move_plunger` on a full cache and a non-failing
backend: the gantry axes are re-targeted at their cached values and the
plunger axis at the requested distance. -/
theorem _move_plunger_spec (st : ApiState) (m : Mount) (d x y a z b c : ℚ)
    (hcache : st.cache = fullCache x y a z b c)
    (hmf : st.move_fails = false) :
    _move_plunger st m d =
      (.ok (), { st with
        events := st.events ++
          [Event.bkMoveEv
            (match m with
             | .LEFT =>
               [(Axis.X, (st.config.gantry_fwd ⟨x, y, z⟩).x),
                (Axis.Y, (st.config.gantry_fwd ⟨x, y, z⟩).y),
                (Axis.Z, (st.config.gantry_fwd ⟨x, y, z⟩).z), (Axis.B, d)]
             | .RIGHT =>
               [(Axis.X, (st.config.gantry_fwd ⟨x, y, a⟩).x),
                (Axis.Y, (st.config.gantry_fwd ⟨x, y, a⟩).y),
                (Axis.A, (st.config.gantry_fwd ⟨x, y, a⟩).z), (Axis.C, d)])],
        backend_pos := match m with
          | .LEFT =>
              (((st.backend_pos.set .X (st.config.gantry_fwd ⟨x, y, z⟩).x).set
                .Y (st.config.gantry_fwd ⟨x, y, z⟩).y).set .Z
                (st.config.gantry_fwd ⟨x, y, z⟩).z).set .B d
          | .RIGHT =>
              (((st.backend_pos.set .X (st.config.gantry_fwd ⟨x, y, a⟩).x).set
                .Y (st.config.gantry_fwd ⟨x, y, a⟩).y).set .A
                (st.config.gantry_fwd ⟨x, y, a⟩).z).set .C d,
        cache := match m with
          | .LEFT => fullCache x y a z d c
          | .RIGHT => fullCache x y a z b d }) := by
  cases m <;>
    simp [_move_plunger, _move, fuseTransformed, Axis.is_gantry, hcache, hmf,
      Axis.by_mount, Axis.of_plunger, SmPos.updateWith, Point.get,
      dictUpdate_fullCache_left4, dictUpdate_fullCache_right4]

/-- Characterization of `retract`: the mount's raw z axis snaps to home, the
cache is rebuilt from the resulting raw position, and the retraction is
recorded. -/
theorem retract_spec (st : ApiState) (m : Mount) (margin : ℚ) :
    retract st m margin =
      (.ok (), { st with
        backend_pos :=
          st.backend_pos.set (Axis.by_mount m)
            (HOME_POSITION.get (Axis.by_mount m)),
        cache := _deck_from_smoothie st.config
          (st.backend_pos.set (Axis.by_mount m)
            (HOME_POSITION.get (Axis.by_mount m))),
        events := st.events ++ [Event.retractEv m margin] }) := rfl

/-- `_cache_and_maybe_retract_mount` when the last-moved mount is already the
target: only the bookkeeping field is touched. -/
theorem _cache_same_mount (st : ApiState) (m : Mount)
    (hlast : st.last_moved_mount = some m) :
    _cache_and_maybe_retract_mount st m = { st with last_moved_mount := some m } := by
  simp [_cache_and_maybe_retract_mount, hlast]

/-- Characterization of `current_position` on a full cache. -/
theorem current_position_spec (st : ApiState) (m : Mount)
    (cpo : Option CriticalPoint) (x y a z b c : ℚ)
    (hcache : st.cache = fullCache x y a z b c) :
    current_position st m cpo =
      (.ok [(Axis.X, x + (cpOffset st m).x + (_critical_point_for st m cpo).x),
            (Axis.Y, y + (cpOffset st m).y + (_critical_point_for st m cpo).y),
            (Axis.by_mount m,
              mountZ m a z + (cpOffset st m).z + (_critical_point_for st m cpo).z),
            (Axis.of_plunger m, mountPl m b c)], st) := by
  cases m <;>
    simp [current_position, hcache, cpOffset, mountZ, mountPl, Axis.by_mount,
      Axis.of_plunger, fullCache_ne_nil]

/-- Characterization of `gantry_position` on a full cache. -/
theorem gantry_position_spec (st : ApiState) (m : Mount) (x y a z b c : ℚ)
    (hcache : st.cache = fullCache x y a z b c) :
    gantry_position st m none =
      (.ok ⟨x + (cpOffset st m).x + (_critical_point_for st m none).x,
            y + (cpOffset st m).y + (_critical_point_for st m none).y,
            mountZ m a z + (cpOffset st m).z + (_critical_point_for st m none).z⟩,
       st) := by
  rw [gantry_position, current_position_spec st m none x y a z b c hcache]
  cases m <;> simp [dlookup, Axis.by_mount, Axis.of_plunger]

/-- Characterization of `move_to` on a full cache, same mount as last moved,
non-failing backend. -/
theorem move_to_spec (st : ApiState) (m : Mount) (P : Point)
    (cpo : Option CriticalPoint) (x y a z b c : ℚ)
    (hcache : st.cache = fullCache x y a z b c)
    (hmf : st.move_fails = false)
    (hlast : st.last_moved_mount = some m) :
    move_to st m P cpo =
      (let o : Point := if m = .LEFT then st.config.mount_offset else ⟨0, 0, 0⟩
       let cp := _critical_point_for st m cpo
       let u := P.x - o.x - cp.x
       let v := P.y - o.y - cp.y
       let w := P.z - o.z - cp.z
       (.ok (), { st with
         last_moved_mount := some m,
         events := st.events ++
           [Event.bkMoveEv
             [(Axis.X, (st.config.gantry_fwd ⟨u, v, w⟩).x),
              (Axis.Y, (st.config.gantry_fwd ⟨u, v, w⟩).y),
              (Axis.by_mount m, (st.config.gantry_fwd ⟨u, v, w⟩).z)]],
         backend_pos :=
           ((st.backend_pos.set .X (st.config.gantry_fwd ⟨u, v, w⟩).x).set .Y
               (st.config.gantry_fwd ⟨u, v, w⟩).y).set (Axis.by_mount m)
             (st.config.gantry_fwd ⟨u, v, w⟩).z,
         cache := match m with
           | .LEFT => fullCache u v a w b c
           | .RIGHT => fullCache u v w z b c })) := by
  have hne : ¬ st.cache = [] := by rw [hcache]; exact fullCache_ne_nil x y a z b c
  rw [move_to, if_neg hne, _cache_same_mount st m hlast]
  rw [_move_spec _ m _ _ _ x y a z b c (by simpa using hcache) (by simpa using hmf)]
  cases m <;> rfl

/-- Characterization of `move_rel` on a full cache, same mount as last
moved, non-failing backend. -/
theorem move_rel_spec (st : ApiState) (m : Mount) (d : Point)
    (x y a z b c : ℚ)
    (hcache : st.cache = fullCache x y a z b c)
    (hmf : st.move_fails = false)
    (hlast : st.last_moved_mount = some m) :
    move_rel st m d =
      (let u := x + d.x
       let v := y + d.y
       let w := mountZ m a z + d.z
       (.ok (), { st with
         last_moved_mount := some m,
         events := st.events ++
           [Event.moveRelEv m d,
            Event.bkMoveEv
              [(Axis.X, (st.config.gantry_fwd ⟨u, v, w⟩).x),
               (Axis.Y, (st.config.gantry_fwd ⟨u, v, w⟩).y),
               (Axis.by_mount m, (st.config.gantry_fwd ⟨u, v, w⟩).z)]],
         backend_pos :=
           ((st.backend_pos.set .X (st.config.gantry_fwd ⟨u, v, w⟩).x).set .Y
               (st.config.gantry_fwd ⟨u, v, w⟩).y).set (Axis.by_mount m)
             (st.config.gantry_fwd ⟨u, v, w⟩).z,
         cache := match m with
           | .LEFT => fullCache u v a w b c
           | .RIGHT => fullCache u v w z b c })) := by
  have hne : ¬ st.cache = [] := by rw [hcache]; exact fullCache_ne_nil x y a z b c
  rw [move_rel, if_neg hne, _cache_same_mount st m hlast]
  have := _move_spec
    { st with last_moved_mount := some m,
              events := st.events ++ [Event.moveRelEv m d] }
    m (x + d.x) (y + d.y) (mountZ m a z + d.z) x y a z b c
    (by simpa using hcache) (by simpa using hmf)
  cases m <;>
    simp_all [mountZ, Axis.by_mount, hcache]

/-! Empty-cache preservation: no public operation other than `home` and
`retract` can repopulate an empty position cache. -/

theorem _move_plunger_empty (st : ApiState) (m : Mount) (d : ℚ)
    (h : st.cache = []) : _move_plunger st m d = (.error .keyError, st) := by
  simp [_move_plunger, h, dlookup]

theorem tp_step_empty (st : ApiState) (acc : TPAcc) (m : Mount) (hs : Hotspot)
    (sz : ℚ) (h : st.cache = []) :
    tp_step st acc m hs sz = (.error .mustHome, st, acc) := by
  simp [tp_step, current_position, h]

theorem tp_loop_cache_empty (m : Mount) (sz : ℚ) (l : List Hotspot)
    (st : ApiState) (acc : TPAcc) (h : st.cache = []) :
    ((tp_loop m sz l st acc).2.1).cache = [] := by
  cases l with
  | nil => simpa [tp_loop] using h
  | cons hs rest => simp [tp_loop, tp_step_empty _ _ _ _ _ h, h]

theorem _assure_tip_restore_cache (st : ApiState) (m : Mount)
    (old_tip : Option ℚ) :
    (_assure_tip_restore st m old_tip).cache = st.cache := by
  rcases hp : st.pipette m with _ | p <;> simp [_assure_tip_restore, hp]

theorem _do_tp_cache_empty (st : ApiState) (m : Mount) (h : st.cache = []) :
    ((_do_tp st m).2).cache = [] := by
  rcases hp : st.pipette m with _ | pip
  · simpa [_do_tp, hp] using h
  · have h1 : (st.setPipette m (pip.update_instrument_offset ⟨0, 0, 0⟩)).cache = [] := by
      simpa using h
    have hl := tp_loop_cache_empty m
      ((st.setPipette m (pip.update_instrument_offset ⟨0, 0, 0⟩)).config.tip_probe.crossover_clearance +
        (st.setPipette m (pip.update_instrument_offset ⟨0, 0, 0⟩)).config.tip_probe.center.z)
      ((st.setPipette m (pip.update_instrument_offset ⟨0, 0, 0⟩)).config.tip_probe.hotspots
        pip.current_tip_length)
      (st.setPipette m (pip.update_instrument_offset ⟨0, 0, 0⟩)) ⟨[], [], []⟩ h1
    simp only [_do_tp, hp]
    split
    · next e st' acc' heq => rw [heq] at hl; exact hl
    · next u st' acc heq =>
        rw [heq] at hl
        split_ifs <;> exact hl

theorem runOp_cache_empty (st : ApiState) (op : HwOp) (h : st.cache = []) :
    (runOp st op).cache = [] := by
  cases op with
  | currentPosOp m cpo => simp [runOp, current_position, h]
  | gantryPosOp m => simp [runOp, gantry_position, current_position, h]
  | moveToOp m p cpo => simp [runOp, move_to, h]
  | moveRelOp m d => simp [runOp, move_rel, h]
  | aspirateOp m v =>
      rcases hp : st.pipette m with _ | pip <;>
        simp [runOp, aspirate, hp, _move_plunger_empty _ _ _ h, h] <;>
        split_ifs <;> simp [h]
  | dispenseOp m v =>
      rcases hp : st.pipette m with _ | pip <;>
        simp [runOp, dispense, hp, _move_plunger_empty _ _ _ h, h] <;>
        split_ifs <;> simp [h]
  | blowOutOp m =>
      rcases hp : st.pipette m with _ | pip <;>
        simp [runOp, blow_out, hp, _move_plunger_empty _ _ _ h, h]
  | pickUpTipOp m tl presses inc =>
      rcases hp : st.pipette m with _ | pip <;>
        simp [runOp, pick_up_tip, hp, _move_plunger_empty _ _ _ h, h] <;>
        split_ifs <;> simp [h]
  | dropTipOp m =>
      rcases hp : st.pipette m with _ | pip <;>
        simp [runOp, drop_tip, hp, _move_plunger_empty _ _ _ h, h] <;>
        split_ifs <;> simp [h]
  | locateOp m tl =>
      rcases hp : st.pipette m with _ | pip
      · simpa [runOp, locate_tip_probe_center, hp] using h
      · simp only [runOp, locate_tip_probe_center, hp]
        split_ifs <;>
          simp_all [_assure_tip_restore_cache, _do_tp_cache_empty, h]

theorem runOps_cache_empty (st : ApiState) (ops : List HwOp)
    (h : st.cache = []) : (runOps st ops).cache = [] := by
  induction ops generalizing st with
  | nil => simpa [runOps] using h
  | cons op rest ih =>
      have := runOp_cache_empty st op h
      simpa [runOps, List.foldl] using ih (runOp st op) this

/-- C1: for every call to the internal move worker `_move` that reaches the
backend move call (exactly three gantry components, fusable target) while
the backend raises, the entire position cache is cleared, the exception
propagates to the caller, and any subsequent `current_position` call — with
any number of intervening public non-homing operations (`home` and
`retract`, the rapid re-home, being the homing operations) — raises
MustHomeError. -/
theorem C1_move_failure_lockout (st : ApiState) (target : List (Axis × ℚ))
    (hf : Bool) (hmf : st.move_fails = true)
    (hlen : ((target.filter (fun kv => kv.1.is_gantry)).map Prod.snd).length = 3)
    (hfuse : ∀ t : Point, ∃ sp, fuseTransformed t 0 target = Except.ok sp) :
    (_move st target hf).1 = .error .backendFail ∧
    ((_move st target hf).2).cache = [] ∧
    (∀ ops : List HwOp, ∀ m cpo,
      (current_position (runOps ((_move st target hf).2) ops) m cpo).1 =
        .error .mustHome) := by
  obtain ⟨sp, hsp⟩ := hfuse (st.config.gantry_fwd
    ⟨((target.filter (fun kv => kv.1.is_gantry)).map Prod.snd).getD 0 0,
     ((target.filter (fun kv => kv.1.is_gantry)).map Prod.snd).getD 1 0,
     ((target.filter (fun kv => kv.1.is_gantry)).map Prod.snd).getD 2 0⟩)
  have hmove : _move st target hf =
      (.error .backendFail,
       { st with events := st.events ++ [Event.bkMoveEv sp], cache := [] }) := by
    simp only [_move]
    rw [if_neg (by simp [hlen])]
    rw [hsp]
    simp [hmf]
  refine ⟨by rw [hmove], by rw [hmove], ?_⟩
  intro ops m cpo
  have hc : (runOps ((_move st target hf).2) ops).cache = [] := by
    apply runOps_cache_empty
    rw [hmove]
  simp [current_position, hc]

/-- Witness for C1 at a concrete failing move on a homed state, with an
intervening aspirate and move attempt before the position query. -/
theorem C1_witness :
    ({ baseState with move_fails := true } : ApiState).move_fails = true ∧
    ((([(Axis.X, (1 : ℚ)), (Axis.Y, 2), (Axis.A, 3)].filter
        (fun kv => kv.1.is_gantry)).map Prod.snd).length = 3) ∧
    (_move { baseState with move_fails := true }
        [(Axis.X, 1), (Axis.Y, 2), (Axis.A, 3)] true).1 =
      .error .backendFail ∧
    ((_move { baseState with move_fails := true }
        [(Axis.X, 1), (Axis.Y, 2), (Axis.A, 3)] true).2).cache = [] ∧
    (current_position
      (runOps ((_move { baseState with move_fails := true }
          [(Axis.X, 1), (Axis.Y, 2), (Axis.A, 3)] true).2)
        [HwOp.aspirateOp .RIGHT (some 5), HwOp.moveToOp .RIGHT ⟨1, 1, 1⟩ none])
      .RIGHT none).1 = .error .mustHome := by
  have h := C1_move_failure_lockout { baseState with move_fails := true }
    [(Axis.X, 1), (Axis.Y, 2), (Axis.A, 3)] true rfl rfl
    (fun t => ⟨_, rfl⟩)
  exact ⟨rfl, rfl, h.1, h.2.1,
    h.2.2 [HwOp.aspirateOp .RIGHT (some 5), HwOp.moveToOp .RIGHT ⟨1, 1, 1⟩ none]
      .RIGHT none⟩

/-! Liquid-handling characterizations. -/

/-- Successful aspirate: the stated volume is credited and the state stays
well-formed (full cache, same configuration, non-failing backend). -/
theorem aspirate_ok_spec (st : ApiState) (m : Mount) (pip : Pipette)
    (x y a z b c v : ℚ)
    (hpip : st.pipette m = some pip)
    (hcache : st.cache = fullCache x y a z b c)
    (hmf : st.move_fails = false)
    (hok : pip.current_volume + v ≤ pip.max_volume) :
    ∃ st', aspirate st m (some v) = (.ok (), st') ∧
      st'.pipette m = some { pip with current_volume := pip.current_volume + v } ∧
      (∃ x' y' a' z' b' c', st'.cache = fullCache x' y' a' z' b' c') ∧
      st'.move_fails = false ∧ st'.config = st.config := by
  simp only [aspirate, hpip]
  rw [if_neg (not_not_intro (show pip.ok_to_add_volume v from hok))]
  by_cases hv : v = 0
  · subst hv
    refine ⟨st, by simp, ?_, ⟨x, y, a, z, b, c, hcache⟩, hmf, rfl⟩
    simpa [hpip] using congrArg some (by cases pip <;> simp)
  · rw [if_neg hv]
    rw [_move_plunger_spec st m _ x y a z b c hcache hmf]
    cases m <;>
      exact ⟨_, rfl,
        by simp [ApiState.setPipette, ApiState.pipette, Pipette.add_current_volume],
        ⟨_, _, _, _, _, _, rfl⟩,
        by simpa using hmf,
        rfl⟩

/-- Aspirate whose plunger move fails: the current volume is reset to 0 and
the backend exception is re-raised. -/
theorem aspirate_fail_spec (st : ApiState) (m : Mount) (pip : Pipette)
    (x y a z b c v : ℚ)
    (hpip : st.pipette m = some pip)
    (hcache : st.cache = fullCache x y a z b c)
    (hmf : st.move_fails = true)
    (hok : pip.current_volume + v ≤ pip.max_volume) (hv : v ≠ 0) :
    (aspirate st m (some v)).1 = .error .backendFail ∧
    ((aspirate st m (some v)).2.pipette m) = some (pip.set_current_volume 0) := by
  simp only [aspirate, hpip]
  rw [if_neg (not_not_intro (show pip.ok_to_add_volume v from hok)), if_neg hv]
  have h4 : _move_plunger st m (_plunger_position pip (pip.current_volume + v) true) =
      (.error .backendFail,
        { st with
          events := st.events ++
            [Event.bkMoveEv
              (match m with
               | .LEFT =>
                 [(Axis.X, (st.config.gantry_fwd ⟨x, y, z⟩).x),
                  (Axis.Y, (st.config.gantry_fwd ⟨x, y, z⟩).y),
                  (Axis.Z, (st.config.gantry_fwd ⟨x, y, z⟩).z),
                  (Axis.B, _plunger_position pip (pip.current_volume + v) true)]
               | .RIGHT =>
                 [(Axis.X, (st.config.gantry_fwd ⟨x, y, a⟩).x),
                  (Axis.Y, (st.config.gantry_fwd ⟨x, y, a⟩).y),
                  (Axis.A, (st.config.gantry_fwd ⟨x, y, a⟩).z),
                  (Axis.C, _plunger_position pip (pip.current_volume + v) true)])],
          cache := [] }) := by
    cases m <;>
      simp [_move_plunger, _move, fuseTransformed, Axis.is_gantry, hcache, hmf,
        Axis.by_mount, Axis.of_plunger, Point.get]
  rw [h4]
  cases m <;> simp [ApiState.setPipette, ApiState.pipette]

/-- Dispense whose plunger move fails: the current volume is reset to 0 and
the backend exception is re-raised. -/
theorem dispense_fail_spec (st : ApiState) (m : Mount) (pip : Pipette)
    (x y a z b c v : ℚ)
    (hpip : st.pipette m = some pip)
    (hcache : st.cache = fullCache x y a z b c)
    (hmf : st.move_fails = true)
    (hv : min pip.current_volume v ≠ 0) :
    (dispense st m (some v)).1 = .error .backendFail ∧
    ((dispense st m (some v)).2.pipette m) = some (pip.set_current_volume 0) := by
  simp only [dispense, hpip]
  rw [if_neg hv]
  have h4 : ∀ d : ℚ, _move_plunger st m d =
      (.error .backendFail,
        { st with
          events := st.events ++
            [Event.bkMoveEv
              (match m with
               | .LEFT =>
                 [(Axis.X, (st.config.gantry_fwd ⟨x, y, z⟩).x),
                  (Axis.Y, (st.config.gantry_fwd ⟨x, y, z⟩).y),
                  (Axis.Z, (st.config.gantry_fwd ⟨x, y, z⟩).z), (Axis.B, d)]
               | .RIGHT =>
                 [(Axis.X, (st.config.gantry_fwd ⟨x, y, a⟩).x),
                  (Axis.Y, (st.config.gantry_fwd ⟨x, y, a⟩).y),
                  (Axis.A, (st.config.gantry_fwd ⟨x, y, a⟩).z), (Axis.C, d)])],
          cache := [] }) := by
    intro d
    cases m <;>
      simp [_move_plunger, _move, fuseTransformed, Axis.is_gantry, hcache, hmf,
        Axis.by_mount, Axis.of_plunger, Point.get]
  rw [h4]
  cases m <;> simp [ApiState.setPipette, ApiState.pipette]

/-- `blow_out` zeroes the current volume on every exit path. -/
theorem blow_out_zeroes (st : ApiState) (m : Mount) (pip : Pipette)
    (hpip : st.pipette m = some pip) :
    ((blow_out st m).2.pipette m) = some (pip.set_current_volume 0) := by
  simp only [blow_out, hpip]
  rcases _move_plunger st m pip.blow_out_pos with ⟨res, st'⟩
  cases res <;> simp

/-- C2 (code bug at `_move`'s gantry-subset validation): a target whose
gantry-axis subset is empty — here a plunger-only move of axis B — raises
ValueError even though the source's own comment and error message say "all
of (x, y, (z or a)) or none of them"; the state is returned unchanged, so no
backend command was recorded.  Conversely a target carrying the gantry
subset {X, Z, A} — not of the form (X, Y, one of Z/A) — passes the
length-only validation and the backend command is issued. -/
theorem C2_empty_gantry_rejected :
    (_move baseState [(Axis.B, 19)] false = (.error .valueError, baseState)) ∧
    ((_move baseState [(Axis.X, 0), (Axis.Z, 1), (Axis.A, 2)] true).1 =
      .ok ()) ∧
    ((_move baseState [(Axis.X, 0), (Axis.Z, 1), (Axis.A, 2)] true).2.events =
      [Event.bkMoveEv [(Axis.X, 0), (Axis.Z, 1), (Axis.A, 2)]]) :=
  ⟨rfl, rfl, rfl⟩

/-- C3: with an attached pipette holding volume v on a homed state with a
working backend, `aspirate(volume)` with `v + volume ≤ max_volume` succeeds
and leaves `current_volume = v + volume`; aspirating beyond the remaining
headroom fails with an assertion before anything moves; an omitted volume
defaults to the remaining headroom (leaving the pipette at max); volume 0 is
a no-op; and two sequential aspirates from an empty pipette accumulate
`v1 + v2`. -/
theorem C3_aspirate_accumulation (st : ApiState) (m : Mount) (pip : Pipette)
    (x y a z b c : ℚ)
    (hpip : st.pipette m = some pip)
    (hcache : st.cache = fullCache x y a z b c)
    (hmf : st.move_fails = false) :
    (∀ v : ℚ, pip.current_volume + v ≤ pip.max_volume →
      (aspirate st m (some v)).1 = .ok () ∧
      ((aspirate st m (some v)).2.pipette m) =
        some { pip with current_volume := pip.current_volume + v }) ∧
    (∀ v : ℚ, pip.max_volume < pip.current_volume + v →
      aspirate st m (some v) = (.error .assertionError, st)) ∧
    ((aspirate st m none).1 = .ok () ∧
     ((aspirate st m none).2.pipette m) =
       some { pip with current_volume := pip.max_volume }) ∧
    (pip.current_volume ≤ pip.max_volume →
      aspirate st m (some 0) = (.ok (), st)) ∧
    (∀ v1 v2 : ℚ, pip.current_volume = 0 → 0 ≤ v2 →
      v1 + v2 ≤ pip.max_volume →
      ((aspirate (aspirate st m (some v1)).2 m (some v2)).2.pipette m) =
        some { pip with current_volume := v1 + v2 }) := by
  have havail : pip.current_volume + pip.available_volume = pip.max_volume := by
    unfold Pipette.available_volume; ring
  refine ⟨?_, ?_, ?_, ?_, ?_⟩
  · intro v hok
    obtain ⟨st', heq, hp', _, _, _⟩ :=
      aspirate_ok_spec st m pip x y a z b c v hpip hcache hmf hok
    rw [heq]
    exact ⟨rfl, hp'⟩
  · intro v hover
    simp only [aspirate, hpip]
    rw [if_pos]
    exact not_le.mpr hover
  · -- default volume: aspirate the remaining headroom
    simp only [aspirate, hpip]
    rw [if_neg (not_not_intro (show pip.ok_to_add_volume pip.available_volume from
      le_of_eq havail))]
    by_cases hv : pip.available_volume = 0
    · have hcur : pip.current_volume = pip.max_volume := by
        unfold Pipette.available_volume at hv; linarith
      rw [if_pos hv]
      refine ⟨rfl, ?_⟩
      rw [hpip]
      have hpe : ({ pip with current_volume := pip.max_volume } : Pipette) = pip := by
        cases pip
        simp_all
      rw [hpe]
    · rw [if_neg hv]
      rw [_move_plunger_spec st m _ x y a z b c hcache hmf]
      constructor
      · cases m <;> rfl
      · cases m <;>
          simp [ApiState.setPipette, ApiState.pipette,
            Pipette.add_current_volume, havail]
  · intro hinv
    simp only [aspirate, hpip]
    rw [if_neg (not_not_intro (show pip.ok_to_add_volume 0 from by
      unfold Pipette.ok_to_add_volume
      simpa using hinv))]
    simp
  · intro v1 v2 h0 hv2 hsum
    have hok1 : pip.current_volume + v1 ≤ pip.max_volume := by rw [h0]; linarith
    obtain ⟨st1, heq1, hp1, ⟨x', y', a', z', b', c', hc1⟩, hmf1, hcfg1⟩ :=
      aspirate_ok_spec st m pip x y a z b c v1 hpip hcache hmf hok1
    rw [heq1]
    have hok2 : ({ pip with current_volume := pip.current_volume + v1 } :
        Pipette).current_volume +
        v2 ≤ ({ pip with current_volume := pip.current_volume + v1 } :
        Pipette).max_volume := by
      simp only [h0, zero_add]
      simpa using hsum
    obtain ⟨st2, heq2, hp2, _, _, _⟩ :=
      aspirate_ok_spec st1 m _ x' y' a' z' b' c' v2 hp1 hc1 hmf1 hok2
    rw [heq2, hp2]
    simp [h0]

/-- C4: with an attached pipette on a homed state with a working backend,
`dispense(volume)` with `volume > current_volume` dispenses exactly the
current volume, leaving `current_volume = 0`; an omitted volume dispenses
the entire current volume; and no dispense call ever drives the recorded
volume negative. -/
theorem C4_dispense_clamp (st : ApiState) (m : Mount) (pip : Pipette)
    (x y a z b c : ℚ)
    (hpip : st.pipette m = some pip)
    (hcache : st.cache = fullCache x y a z b c)
    (hmf : st.move_fails = false)
    (hvol : 0 ≤ pip.current_volume) :
    (∀ v : ℚ, pip.current_volume < v →
      (dispense st m (some v)).1 = .ok () ∧
      ((dispense st m (some v)).2.pipette m) =
        some { pip with current_volume := 0 }) ∧
    ((dispense st m none).1 = .ok () ∧
     ((dispense st m none).2.pipette m) =
       some { pip with current_volume := 0 }) ∧
    (∀ v : Option ℚ, ∀ pip' : Pipette,
      ((dispense st m v).2.pipette m) = some pip' →
      0 ≤ pip'.current_volume) := by
  have hzero : ∀ res : Except HwError Unit,
      (res, st).2.pipette m = some pip := by intro _; exact hpip
  have hfull : ∀ dv : ℚ, min pip.current_volume dv = pip.current_volume →
      (dispense st m (some dv)).1 = .ok () ∧
      ((dispense st m (some dv)).2.pipette m) =
        some { pip with current_volume := 0 } := by
    intro dv hmin
    simp only [dispense, hpip]
    rw [hmin]
    by_cases h0 : pip.current_volume = 0
    · rw [if_pos h0]
      refine ⟨rfl, ?_⟩
      rw [hpip]
      exact congrArg some (by cases pip; simp_all)
    · rw [if_neg h0]
      rw [_move_plunger_spec st m _ x y a z b c hcache hmf]
      constructor
      · cases m <;> rfl
      · cases m <;>
          simp [ApiState.setPipette, ApiState.pipette,
            Pipette.remove_current_volume]
  refine ⟨fun v hv => hfull v (min_eq_left hv.le), ?_, ?_⟩
  · simp only [dispense, hpip]
    rw [min_self]
    by_cases h0 : pip.current_volume = 0
    · rw [if_pos h0]
      refine ⟨rfl, ?_⟩
      rw [hpip]
      exact congrArg some (by cases pip; simp_all)
    · rw [if_neg h0]
      rw [_move_plunger_spec st m _ x y a z b c hcache hmf]
      constructor
      · cases m <;> rfl
      · cases m <;>
          simp [ApiState.setPipette, ApiState.pipette,
            Pipette.remove_current_volume]
  · intro v pip' hp'
    have hgen : ∀ dv : ℚ,
        ((dispense st m (some dv)).2.pipette m) = some pip' →
        0 ≤ pip'.current_volume := by
      intro dv hp2
      revert hp2
      simp only [dispense, hpip]
      by_cases h0 : min pip.current_volume dv = 0
      · rw [if_pos h0]
        intro hp2
        rw [hpip] at hp2
        obtain rfl : pip = pip' := by injection hp2
        exact hvol
      · rw [if_neg h0]
        rw [_move_plunger_spec st m _ x y a z b c hcache hmf]
        cases m <;>
          (simp only [ApiState.setPipette, ApiState.pipette,
            Pipette.remove_current_volume]
           intro hp2
           obtain rfl : _ = pip' := by injection hp2
           simp only []
           have := min_le_left pip.current_volume dv
           linarith)
    cases v with
    | some w => exact hgen w hp'
    | none =>
        revert hp'
        simp only [dispense, hpip]
        rw [min_self]
        by_cases h0 : pip.current_volume = 0
        · rw [if_pos h0]
          intro hp2
          rw [hpip] at hp2
          obtain rfl : pip = pip' := by injection hp2
          exact hvol
        · rw [if_neg h0]
          rw [_move_plunger_spec st m _ x y a z b c hcache hmf]
          cases m <;>
            (simp only [ApiState.setPipette, ApiState.pipette,
              Pipette.remove_current_volume]
             intro hp2
             obtain rfl : _ = pip' := by injection hp2
             simp only []
             linarith)

/-- C5: with an attached pipette on a homed state, a plunger-move failure
inside `aspirate` or `dispense` resets `current_volume` to 0 and re-raises
the backend exception, and `blow_out` zeroes `current_volume` on every exit
path, its own plunger-move failure included. -/
theorem C5_failure_cleanup (st : ApiState) (m : Mount) (pip : Pipette)
    (x y a z b c : ℚ)
    (hpip : st.pipette m = some pip)
    (hcache : st.cache = fullCache x y a z b c) :
    (∀ v : ℚ, st.move_fails = true →
      pip.current_volume + v ≤ pip.max_volume → v ≠ 0 →
      (aspirate st m (some v)).1 = .error .backendFail ∧
      ((aspirate st m (some v)).2.pipette m) =
        some (pip.set_current_volume 0)) ∧
    (∀ v : ℚ, st.move_fails = true → min pip.current_volume v ≠ 0 →
      (dispense st m (some v)).1 = .error .backendFail ∧
      ((dispense st m (some v)).2.pipette m) =
        some (pip.set_current_volume 0)) ∧
    (((blow_out st m).2.pipette m) = some (pip.set_current_volume 0)) ∧
    (st.move_fails = true → (blow_out st m).1 = .error .backendFail) := by
  refine ⟨fun v hmf hok hv =>
      aspirate_fail_spec st m pip x y a z b c v hpip hcache hmf hok hv,
    fun v hmf hv =>
      dispense_fail_spec st m pip x y a z b c v hpip hcache hmf hv,
    blow_out_zeroes st m pip hpip, ?_⟩
  intro hmf
  simp only [blow_out, hpip]
  have h4 : ∀ d : ℚ, (_move_plunger st m d).1 = .error .backendFail := by
    intro d
    cases m <;>
      simp [_move_plunger, _move, fuseTransformed, Axis.is_gantry, hcache, hmf,
        Axis.by_mount, Axis.of_plunger, Point.get]
  rcases hmp : _move_plunger st m pip.blow_out_pos with ⟨res, st'⟩
  have := h4 pip.blow_out_pos
  rw [hmp] at this
  simp only at this
  subst this
  simp

/-- Witness for C3 on the homed simulator state: aspirate 100 then 150 into
a 300-max pipette. -/
theorem C3_witness :
    baseState.pipette .RIGHT = some testPip ∧
    baseState.cache = fullCache 418 353 218 218 19 19 ∧
    baseState.move_fails = false ∧
    testPip.current_volume + 100 ≤ testPip.max_volume ∧
    (aspirate baseState .RIGHT (some 100)).1 = .ok () ∧
    ((aspirate baseState .RIGHT (some 100)).2.pipette .RIGHT) =
      some { testPip with current_volume := testPip.current_volume + 100 } ∧
    ((aspirate (aspirate baseState .RIGHT (some 100)).2 .RIGHT
        (some 150)).2.pipette .RIGHT) =
      some { testPip with current_volume := 100 + 150 } := by
  have h := C3_aspirate_accumulation baseState .RIGHT testPip
    418 353 218 218 19 19 rfl rfl rfl
  refine ⟨rfl, rfl, rfl, by norm_num [testPip], (h.1 100 ?_).1, (h.1 100 ?_).2,
    h.2.2.2.2 100 150 rfl (by norm_num) (by norm_num [testPip])⟩ <;>
    norm_num [testPip]

/-- Witness for C4 on the homed simulator state with 50 microliters held:
dispensing a requested 80 clamps to 50 and leaves exactly 0. -/
theorem C4_witness :
    vol50State.pipette .RIGHT = some pip50 ∧
    (0 : ℚ) ≤ pip50.current_volume ∧
    pip50.current_volume < 80 ∧
    (dispense vol50State .RIGHT (some 80)).1 = .ok () ∧
    ((dispense vol50State .RIGHT (some 80)).2.pipette .RIGHT) =
      some { pip50 with current_volume := 0 } := by
  have h := C4_dispense_clamp vol50State .RIGHT pip50
    418 353 218 218 19 19 rfl rfl rfl (by norm_num [pip50, testPip])
  exact ⟨rfl, by norm_num [pip50, testPip], by norm_num [pip50, testPip],
    (h.1 80 (by norm_num [pip50, testPip])).1,
    (h.1 80 (by norm_num [pip50, testPip])).2⟩

/-- Witness for C5 on a homed state whose backend raises on the next move:
aspirate and dispense both reset the held 50 microliters to 0 and re-raise,
and blow-out zeroes the volume as well. -/
theorem C5_witness :
    vol50FailState.move_fails = true ∧
    (aspirate vol50FailState .RIGHT (some 30)).1 = .error .backendFail ∧
    ((aspirate vol50FailState .RIGHT (some 30)).2.pipette .RIGHT) =
      some (pip50.set_current_volume 0) ∧
    (dispense vol50FailState .RIGHT (some 30)).1 = .error .backendFail ∧
    ((dispense vol50FailState .RIGHT (some 30)).2.pipette .RIGHT) =
      some (pip50.set_current_volume 0) ∧
    ((blow_out vol50FailState .RIGHT).2.pipette .RIGHT) =
      some (pip50.set_current_volume 0) ∧
    (blow_out vol50FailState .RIGHT).1 = .error .backendFail := by
  have h := C5_failure_cleanup vol50FailState .RIGHT pip50
    418 353 218 218 19 19 rfl rfl
  exact ⟨rfl, (h.1 30 rfl (by norm_num [pip50, testPip]) (by norm_num)).1,
    (h.1 30 rfl (by norm_num [pip50, testPip]) (by norm_num)).2,
    (h.2.1 30 rfl (by norm_num [pip50, testPip])).1,
    (h.2.1 30 rfl (by norm_num [pip50, testPip])).2,
    h.2.2.1, h.2.2.2 rfl⟩

/-- `_move` appends at most its backend command to the event trace — never a
retraction — and leaves the last-moved-mount bookkeeping untouched. -/
theorem _move_events (st : ApiState) (tgt : List (Axis × ℚ)) (hf : Bool) :
    ∃ tail, ((_move st tgt hf).2).events = st.events ++ tail ∧
      tail.filter Event.isRetract = [] ∧
      ((_move st tgt hf).2).last_moved_mount = st.last_moved_mount := by
  simp only [_move]
  split
  · exact ⟨[], by simp, rfl, rfl⟩
  · split
    · exact ⟨[], by simp, rfl, rfl⟩
    · split_ifs <;>
        exact ⟨[Event.bkMoveEv _], rfl, by simp [Event.isRetract], rfl⟩

/-- `_cache_and_maybe_retract_mount` on a mount switch: one retraction of
the previously moved mount by the fixed 10-unit margin, then the target
mount is recorded. -/
theorem _cache_other_mount (st : ApiState) (m m' : Mount)
    (hlast : st.last_moved_mount = some m') (hne : m ≠ m') :
    _cache_and_maybe_retract_mount st m =
      { st with
        backend_pos := st.backend_pos.set (Axis.by_mount m')
          (HOME_POSITION.get (Axis.by_mount m')),
        cache := _deck_from_smoothie st.config
          (st.backend_pos.set (Axis.by_mount m')
            (HOME_POSITION.get (Axis.by_mount m'))),
        events := st.events ++ [Event.retractEv m' 10],
        last_moved_mount := some m } := by
  simp [_cache_and_maybe_retract_mount, hlast, hne, retract]

/-- Events of `move_to`: whatever the retraction bookkeeping recorded,
followed by at most the backend command; the last-moved mount is the one
the bookkeeping recorded. -/
theorem move_to_events (st : ApiState) (m : Mount) (P : Point)
    (cpo : Option CriticalPoint) (hcache : st.cache ≠ []) :
    ∃ tail, ((move_to st m P cpo).2).events =
        (_cache_and_maybe_retract_mount st m).events ++ tail ∧
      tail.filter Event.isRetract = [] ∧
      ((move_to st m P cpo).2).last_moved_mount =
        (_cache_and_maybe_retract_mount st m).last_moved_mount := by
  simp only [move_to]
  rw [if_neg hcache]
  exact _move_events _ _ _

/-- Events of `move_rel`: whatever the retraction bookkeeping recorded,
then the relative-move record, then at most the backend command. -/
theorem move_rel_events (st : ApiState) (m : Mount) (d : Point)
    (hcache : st.cache ≠ []) :
    ∃ tail, ((move_rel st m d).2).events =
        (_cache_and_maybe_retract_mount st m).events ++
          Event.moveRelEv m d :: tail ∧
      tail.filter Event.isRetract = [] ∧
      ((move_rel st m d).2).last_moved_mount =
        (_cache_and_maybe_retract_mount st m).last_moved_mount := by
  simp only [move_rel]
  rw [if_neg hcache]
  split
  · obtain ⟨tail, he, hft, hl⟩ := _move_events
      { _cache_and_maybe_retract_mount st m with
          events := (_cache_and_maybe_retract_mount st m).events ++
            [Event.moveRelEv m d] } _ true
    exact ⟨tail, by simpa using he, hft, by simpa using hl⟩
  · exact ⟨[], by simp, rfl, by simp⟩

/-- C7 counterexample: a mount-addressed move that fails its MustHome
precondition issues no retraction and does not record the target mount as
last-moved, contradicting the claim that on a mount switch exactly one
retraction is issued and that the target mount is recorded unconditionally
even if the move fails.  Concretely: last-moved is LEFT, the cache is empty
after a motion failure, and `move_to` on RIGHT raises MustHome with an
empty event trace and LEFT still recorded. -/
theorem C7_counterexample :
    Mount.RIGHT ≠ Mount.LEFT ∧
    ({ baseState with
        cache := [],
        last_moved_mount := some Mount.LEFT } : ApiState).last_moved_mount =
      some Mount.LEFT ∧
    (move_to { baseState with
        cache := [],
        last_moved_mount := some Mount.LEFT } .RIGHT ⟨1, 2, 3⟩ none).1 =
      .error .mustHome ∧
    ((move_to { baseState with
        cache := [],
        last_moved_mount := some Mount.LEFT } .RIGHT ⟨1, 2, 3⟩
        none).2).events = [] ∧
    ((move_to { baseState with
        cache := [],
        last_moved_mount := some Mount.LEFT } .RIGHT ⟨1, 2, 3⟩
        none).2).last_moved_mount = some Mount.LEFT := by
  exact ⟨by simp, rfl, rfl, rfl, rfl⟩

/-- C7 (amended): provided the position cache is nonempty at call entry
(otherwise MustHomeError is raised before any retraction or bookkeeping),
a `move_to` or `move_rel` targeting mount M when the previously moved mount
was M' ≠ M issues exactly one retraction — of M', by the fixed 10-unit
margin, before the backend move command — while two consecutive moves of
the same mount issue zero retractions; and in either case M is recorded as
last-moved, even if the backend move itself then fails. -/
theorem C7_retraction_policy (st : ApiState) (m m' : Mount) (P d : Point)
    (cpo : Option CriticalPoint)
    (hcache : st.cache ≠ [])
    (hlast : st.last_moved_mount = some m') :
    (m ≠ m' →
      (∃ tail, ((move_to st m P cpo).2).events =
          st.events ++ Event.retractEv m' 10 :: tail ∧
        tail.filter Event.isRetract = []) ∧
      ((move_to st m P cpo).2).last_moved_mount = some m ∧
      (∃ tail, ((move_rel st m d).2).events =
          st.events ++ Event.retractEv m' 10 :: tail ∧
        tail.filter Event.isRetract = []) ∧
      ((move_rel st m d).2).last_moved_mount = some m) ∧
    (m = m' →
      (∃ tail, ((move_to st m P cpo).2).events = st.events ++ tail ∧
        tail.filter Event.isRetract = []) ∧
      ((move_to st m P cpo).2).last_moved_mount = some m ∧
      (∃ tail, ((move_rel st m d).2).events = st.events ++ tail ∧
        tail.filter Event.isRetract = []) ∧
      ((move_rel st m d).2).last_moved_mount = some m) := by
  constructor
  · intro hne
    have hc := _cache_other_mount st m m' hlast hne
    obtain ⟨t1, he1, hf1, hl1⟩ := move_to_events st m P cpo hcache
    obtain ⟨t2, he2, hf2, hl2⟩ := move_rel_events st m d hcache
    rw [hc] at he1 hl1 he2 hl2
    exact ⟨⟨t1, by simpa using he1, hf1⟩, by simpa using hl1,
      ⟨Event.moveRelEv m d :: t2, by simpa using he2,
        by simpa [Event.isRetract] using hf2⟩,
      by simpa using hl2⟩
  · intro heq
    subst heq
    have hc := _cache_same_mount st m hlast
    obtain ⟨t1, he1, hf1, hl1⟩ := move_to_events st m P cpo hcache
    obtain ⟨t2, he2, hf2, hl2⟩ := move_rel_events st m d hcache
    rw [hc] at he1 hl1 he2 hl2
    exact ⟨⟨t1, by simpa using he1, hf1⟩, by simpa using hl1,
      ⟨Event.moveRelEv m d :: t2, by simpa using he2,
        by simpa [Event.isRetract] using hf2⟩,
      by simpa using hl2⟩

/-- Witness for the amended C7 on the homed simulator state: moving RIGHT
after LEFT records exactly one retraction of LEFT by 10, moving RIGHT after
RIGHT records none, and RIGHT ends recorded as last-moved in both cases. -/
theorem C7_witness :
    ({ baseState with last_moved_mount := some Mount.LEFT } :
      ApiState).cache ≠ [] ∧
    ((move_to { baseState with last_moved_mount := some Mount.LEFT }
        .RIGHT ⟨1, 2, 3⟩ none).2).events.filter Event.isRetract =
      [Event.retractEv .LEFT 10] ∧
    ((move_to { baseState with last_moved_mount := some Mount.LEFT }
        .RIGHT ⟨1, 2, 3⟩ none).2).last_moved_mount = some Mount.RIGHT ∧
    ((move_to baseState .RIGHT ⟨1, 2, 3⟩ none).2).events.filter
      Event.isRetract = [] ∧
    ((move_to baseState .RIGHT ⟨1, 2, 3⟩ none).2).last_moved_mount =
      some Mount.RIGHT := by
  have h1 := C7_retraction_policy
    { baseState with last_moved_mount := some Mount.LEFT }
    .RIGHT .LEFT ⟨1, 2, 3⟩ ⟨0, 0, 0⟩ none (by simp [baseState, _deck_from_smoothie]) rfl
  have h2 := C7_retraction_policy baseState .RIGHT .RIGHT ⟨1, 2, 3⟩ ⟨0, 0, 0⟩
    none (by simp [baseState, _deck_from_smoothie]) rfl
  obtain ⟨⟨tail, he, hft⟩, hl, _, _⟩ := h1.1 (by simp)
  obtain ⟨⟨tail2, he2, hft2⟩, hl2, _, _⟩ := h2.2 rfl
  refine ⟨by simp [baseState, _deck_from_smoothie], ?_, hl, ?_, hl2⟩
  · rw [he]
    simp only [List.filter_append, List.filter_cons]
    simp [hft, Event.isRetract, baseState]
  · rw [he2]
    simp [hft2, baseState]

/-- Successful `move_rel` on a full cache, same mount, non-failing backend:
existential form convenient for chaining. -/
theorem move_rel_ok (st : ApiState) (m : Mount) (d : Point) (x y a z b c : ℚ)
    (hc : st.cache = fullCache x y a z b c) (hmf : st.move_fails = false)
    (hlast : st.last_moved_mount = some m) :
    ∃ x' y' a' z' b' c' sp,
      (move_rel st m d).1 = .ok () ∧
      ((move_rel st m d).2).cache = fullCache x' y' a' z' b' c' ∧
      ((move_rel st m d).2).move_fails = false ∧
      ((move_rel st m d).2).last_moved_mount = some m ∧
      ((move_rel st m d).2).config = st.config ∧
      (∀ mm, ((move_rel st m d).2).pipette mm = st.pipette mm) ∧
      ((move_rel st m d).2).events =
        st.events ++ [Event.moveRelEv m d, Event.bkMoveEv sp] := by
  rw [move_rel_spec st m d x y a z b c hc hmf hlast]
  cases m <;>
    exact ⟨_, _, _, _, _, _, _, rfl, rfl, by simpa using hmf, rfl, rfl,
      fun mm => by cases mm <;> rfl, rfl⟩

/-- Successful `_move_plunger` on a full cache with a non-failing backend:
existential form convenient for chaining. -/
theorem _move_plunger_ok (st : ApiState) (m : Mount) (dd x y a z b c : ℚ)
    (hc : st.cache = fullCache x y a z b c) (hmf : st.move_fails = false) :
    ∃ x' y' a' z' b' c' sp,
      (_move_plunger st m dd).1 = .ok () ∧
      ((_move_plunger st m dd).2).cache = fullCache x' y' a' z' b' c' ∧
      ((_move_plunger st m dd).2).move_fails = false ∧
      ((_move_plunger st m dd).2).last_moved_mount = st.last_moved_mount ∧
      ((_move_plunger st m dd).2).config = st.config ∧
      (∀ mm, ((_move_plunger st m dd).2).pipette mm = st.pipette mm) ∧
      ((_move_plunger st m dd).2).events =
        st.events ++ [Event.bkMoveEv sp] := by
  rw [_move_plunger_spec st m dd x y a z b c hc hmf]
  cases m <;>
    exact ⟨_, _, _, _, _, _, _, rfl, rfl, by simpa using hmf, rfl, rfl,
      fun mm => by cases mm <;> rfl, rfl⟩

/-- The press/backup loop of `pick_up_tip` succeeds on a well-formed state,
preserves the pipettes, the configuration and the mount bookkeeping, keeps
the cache full, and its relative-move records are exactly the press
schedule. -/
theorem pickUpPresses_spec (m : Mount) (pd inc : ℚ) (idxs : List Nat) :
    ∀ st x y a z b c, st.cache = fullCache x y a z b c →
      st.move_fails = false → st.last_moved_mount = some m →
      (pickUpPresses m pd inc idxs st).1 = .ok () ∧
      (∃ x' y' a' z' b' c',
        ((pickUpPresses m pd inc idxs st).2).cache =
          fullCache x' y' a' z' b' c') ∧
      ((pickUpPresses m pd inc idxs st).2).move_fails = false ∧
      ((pickUpPresses m pd inc idxs st).2).last_moved_mount = some m ∧
      ((pickUpPresses m pd inc idxs st).2).config = st.config ∧
      (∀ mm, ((pickUpPresses m pd inc idxs st).2).pipette mm =
        st.pipette mm) ∧
      ((pickUpPresses m pd inc idxs st).2).events.filter Event.isMoveRel =
        st.events.filter Event.isMoveRel ++ pressMoveRels m pd inc idxs := by
  induction idxs with
  | nil =>
      intro st x y a z b c hc hmf hlast
      exact ⟨rfl, ⟨x, y, a, z, b, c, hc⟩, hmf, hlast, rfl, fun _ => rfl,
        by simp [pickUpPresses, pressMoveRels]⟩
  | cons i rest ih =>
      intro st x y a z b c hc hmf hlast
      simp only [pickUpPresses]
      obtain ⟨x1, y1, a1, z1, b1, c1, sp1, hok1, hc1, hmf1, hlast1, hcfg1,
        hpip1, hev1⟩ :=
        move_rel_ok st m ⟨0, 0, -1 * pd + -1 * inc * (i : ℚ)⟩ x y a z b c
          hc hmf hlast
      rcases hmr1 : move_rel st m ⟨0, 0, -1 * pd + -1 * inc * (i : ℚ)⟩ with
        ⟨res1, st1⟩
      rw [hmr1] at hok1 hc1 hmf1 hlast1 hcfg1 hpip1 hev1
      simp only at hok1 hc1 hmf1 hlast1 hcfg1 hpip1 hev1
      subst hok1
      simp only []
      obtain ⟨x2, y2, a2, z2, b2, c2, sp2, hok2, hc2, hmf2, hlast2, hcfg2,
        hpip2, hev2⟩ :=
        move_rel_ok st1 m ⟨0, 0, -(-1 * pd + -1 * inc * (i : ℚ))⟩
          x1 y1 a1 z1 b1 c1 hc1 hmf1 hlast1
      rcases hmr2 : move_rel st1 m ⟨0, 0, -(-1 * pd + -1 * inc * (i : ℚ))⟩ with
        ⟨res2, st2⟩
      rw [hmr2] at hok2 hc2 hmf2 hlast2 hcfg2 hpip2 hev2
      simp only at hok2 hc2 hmf2 hlast2 hcfg2 hpip2 hev2
      subst hok2
      simp only []
      obtain ⟨hokr, hcr, hmfr, hlastr, hcfgr, hpipr, hevr⟩ :=
        ih st2 x2 y2 a2 z2 b2 c2 hc2 hmf2 hlast2
      refine ⟨hokr, hcr, hmfr, hlastr, by rw [hcfgr, hcfg2, hcfg1],
        fun mm => by rw [hpipr mm, hpip2 mm, hpip1 mm], ?_⟩
      rw [hevr, hev2, hev1]
      simp [pressMoveRels, Event.isMoveRel]

/-- C8: for every `pick_up_tip` call with `pick_up_distance = 10`,
`increment = 1`, `presses = 3` on a well-formed state (attached pipette
without a tip, no pickup-shake quirk, full cache, working backend), the
relative moves issued are exactly three presses down by 10, 11 and 12
(negative z deltas), each followed by a backup up by the same distance. -/
theorem C8_press_schedule (st : ApiState) (m : Mount) (pip : Pipette)
    (tl x y a z b c : ℚ)
    (hpip : st.pipette m = some pip)
    (hnt : pip.has_tip = false)
    (hpd : pip.pick_up_distance = 10)
    (hq : pip.needs_pickup_shake = false)
    (hcache : st.cache = fullCache x y a z b c)
    (hmf : st.move_fails = false)
    (hlast : st.last_moved_mount = some m) :
    (pick_up_tip st m tl 3 1).1 = .ok () ∧
    ((pick_up_tip st m tl 3 1).2).events.filter Event.isMoveRel =
      st.events.filter Event.isMoveRel ++
      [Event.moveRelEv m ⟨0, 0, -10⟩, Event.moveRelEv m ⟨0, 0, 10⟩,
       Event.moveRelEv m ⟨0, 0, -11⟩, Event.moveRelEv m ⟨0, 0, 11⟩,
       Event.moveRelEv m ⟨0, 0, -12⟩, Event.moveRelEv m ⟨0, 0, 12⟩] := by
  simp only [pick_up_tip, hpip]
  rw [if_neg (by simp [hnt])]
  obtain ⟨x0, y0, a0, z0, b0, c0, sp0, hok0, hc0, hmf0, hlast0, hcfg0, hpip0,
    hev0⟩ := _move_plunger_ok st m pip.bottom x y a z b c hcache hmf
  rcases hmp : _move_plunger st m pip.bottom with ⟨res0, st0⟩
  rw [hmp] at hok0 hc0 hmf0 hlast0 hcfg0 hpip0 hev0
  simp only at hok0 hc0 hmf0 hlast0 hcfg0 hpip0 hev0
  subst hok0
  simp only []
  obtain ⟨hokp, ⟨x1, y1, a1, z1, b1, c1, hcp⟩, hmfp, hlastp, hcfgp, hpipp,
    hevp⟩ := pickUpPresses_spec m pip.pick_up_distance 1 (List.range 3) st0
      x0 y0 a0 z0 b0 c0 hc0 hmf0 (by rw [hlast0]; exact hlast)
  rcases hpr : pickUpPresses m pip.pick_up_distance 1 (List.range 3) st0 with
    ⟨resp, stp⟩
  rw [hpr] at hokp hcp hmfp hlastp hcfgp hpipp hevp
  simp only at hokp hcp hmfp hlastp hcfgp hpipp hevp
  subst hokp
  simp only []
  rw [if_neg (by simp [hq])]
  rw [retract_spec]
  refine ⟨rfl, ?_⟩
  have hrange : List.range 3 = [0, 1, 2] := by decide
  rw [hrange] at hevp
  simp only [setPipette_events, List.filter_append]
  rw [hevp, hev0]
  rw [hpd] at *
  simp [pressMoveRels, Event.isMoveRel, Event.isRetract, List.filter_append]
  norm_num

/-- Witness for C8 on the homed simulator state: picking up a tip on the
right mount records exactly the −10/+10, −11/+11, −12/+12 schedule. -/
theorem C8_witness :
    baseState.pipette .RIGHT = some testPip ∧
    testPip.has_tip = false ∧
    testPip.pick_up_distance = 10 ∧
    testPip.needs_pickup_shake = false ∧
    (pick_up_tip baseState .RIGHT 50 3 1).1 = .ok () ∧
    ((pick_up_tip baseState .RIGHT 50 3 1).2).events.filter Event.isMoveRel =
      [Event.moveRelEv .RIGHT ⟨0, 0, -10⟩, Event.moveRelEv .RIGHT ⟨0, 0, 10⟩,
       Event.moveRelEv .RIGHT ⟨0, 0, -11⟩, Event.moveRelEv .RIGHT ⟨0, 0, 11⟩,
       Event.moveRelEv .RIGHT ⟨0, 0, -12⟩,
       Event.moveRelEv .RIGHT ⟨0, 0, 12⟩] := by
  have h := C8_press_schedule baseState .RIGHT testPip 50
    418 353 218 218 19 19 rfl rfl rfl rfl rfl rfl rfl
  exact ⟨rfl, rfl, rfl, rfl, h.1, by simpa [baseState] using h.2⟩

/-! Moves never touch the attached pipettes: preservation lemmas feeding the
tip-probe frame-effect claim. -/

theorem PipsEq.refl' (s : ApiState) : PipsEq s s := ⟨rfl, rfl⟩

theorem PipsEq.trans' {s1 s2 s3 : ApiState} (h1 : PipsEq s1 s2)
    (h2 : PipsEq s2 s3) : PipsEq s1 s3 :=
  ⟨h1.1.trans h2.1, h1.2.trans h2.2⟩

theorem PipsEq.pipette_eq {s1 s2 : ApiState} (h : PipsEq s1 s2) (m : Mount) :
    s1.pipette m = s2.pipette m := by
  cases m
  · exact h.1
  · exact h.2

theorem current_position_state (st : ApiState) (m : Mount)
    (cp : Option CriticalPoint) : (current_position st m cp).2 = st := by
  simp only [current_position]
  split_ifs <;> first | rfl | (split <;> rfl)

theorem gantry_position_state (st : ApiState) (m : Mount) :
    (gantry_position st m none).2 = st := by
  simp only [gantry_position]
  rcases h : current_position st m none with ⟨res, st'⟩
  have := current_position_state st m none
  rw [h] at this
  cases res <;> simpa using this

theorem _move_pips (st : ApiState) (tgt : List (Axis × ℚ)) (hf : Bool) :
    PipsEq ((_move st tgt hf).2) st := by
  simp only [_move]
  split
  · exact ⟨rfl, rfl⟩
  · split
    · exact ⟨rfl, rfl⟩
    · split_ifs <;> exact ⟨rfl, rfl⟩

theorem _cache_pips (st : ApiState) (m : Mount) :
    PipsEq (_cache_and_maybe_retract_mount st m) st := by
  simp only [_cache_and_maybe_retract_mount, retract]
  split
  · split_ifs <;> exact ⟨rfl, rfl⟩
  · exact ⟨rfl, rfl⟩

theorem move_to_pips (st : ApiState) (m : Mount) (P : Point)
    (cpo : Option CriticalPoint) : PipsEq ((move_to st m P cpo).2) st := by
  simp only [move_to]
  split_ifs <;>
    first
    | exact ⟨rfl, rfl⟩
    | exact (_move_pips _ _ _).trans' (_cache_pips st m)

theorem move_rel_pips (st : ApiState) (m : Mount) (d : Point) :
    PipsEq ((move_rel st m d).2) st := by
  simp only [move_rel]
  split_ifs
  · exact ⟨rfl, rfl⟩
  · split
    · exact (_move_pips _ _ _).trans' (_cache_pips st m)
    · exact _cache_pips st m

theorem current_position_state2 {st st' : ApiState} {m : Mount}
    {cp : Option CriticalPoint} {r : Except HwError (List (Axis × ℚ))}
    (h : current_position st m cp = (r, st')) : st' = st := by
  have := current_position_state st m cp
  rw [h] at this
  exact this

theorem move_to_pips2 {st st' : ApiState} {m : Mount} {P : Point}
    {cpo : Option CriticalPoint} {r : Except HwError Unit}
    (h : move_to st m P cpo = (r, st')) : PipsEq st' st := by
  have := move_to_pips st m P cpo
  rw [h] at this
  exact this

theorem move_rel_pips2 {st st' : ApiState} {m : Mount} {d : Point}
    {r : Except HwError Unit}
    (h : move_rel st m d = (r, st')) : PipsEq st' st := by
  have := move_rel_pips st m d
  rw [h] at this
  exact this

theorem gantry_position_state2 {st st' : ApiState} {m : Mount}
    {r : Except HwError Point}
    (h : gantry_position st m none = (r, st')) : st' = st := by
  have := gantry_position_state st m
  rw [h] at this
  exact this

theorem tp_step_pips (st : ApiState) (acc : TPAcc) (m : Mount) (hs : Hotspot)
    (sz : ℚ) : PipsEq ((tp_step st acc m hs sz).2.1) st := by
  simp only [tp_step]
  split
  · rename_i e st' heq
    rw [current_position_state2 heq]
    exact ⟨rfl, rfl⟩
  · rename_i u pos st0 heq0
    rw [current_position_state2 heq0]
    split
    · rename_i e st' heq1
      exact move_to_pips2 heq1
    · rename_i u1 st1 heq1
      split
      · rename_i e st' heq2
        exact (move_to_pips2 heq2).trans' (move_to_pips2 heq1)
      · rename_i u2 st2 heq2
        split
        · rename_i e st' heq3
          exact ((move_to_pips2 heq3).trans' (move_to_pips2 heq2)).trans'
            (move_to_pips2 heq1)
        · rename_i u3 st3 heq3
          split
          · rename_i e st' heq4
            rw [gantry_position_state2 heq4]
            exact (@PipsEq.trans' _ st3 _ ⟨rfl, rfl⟩ (move_to_pips2 heq3)).trans'
              ((move_to_pips2 heq2).trans' (move_to_pips2 heq1))
          · rename_i u4 xyz st4 heq4
            rw [gantry_position_state2 heq4]
            split
            · rename_i e st' heq5
              exact ((move_rel_pips2 heq5).trans'
                (@PipsEq.trans' _ st3 _ ⟨rfl, rfl⟩ (move_to_pips2 heq3))).trans'
                ((move_to_pips2 heq2).trans' (move_to_pips2 heq1))
            · rename_i u5 st5 heq5
              split <;>
                (rename_i heq6
                 exact (((move_to_pips2 heq6).trans'
                   (move_rel_pips2 heq5)).trans'
                   (@PipsEq.trans' _ st3 _ ⟨rfl, rfl⟩ (move_to_pips2 heq3))).trans'
                   ((move_to_pips2 heq2).trans' (move_to_pips2 heq1)))

theorem tp_step_pips2 {st st' : ApiState} {acc acc' : TPAcc} {m : Mount}
    {hs : Hotspot} {sz : ℚ} {r : Except HwError Unit}
    (h : tp_step st acc m hs sz = (r, st', acc')) : PipsEq st' st := by
  have := tp_step_pips st acc m hs sz
  rw [h] at this
  exact this

theorem tp_loop_pips (m : Mount) (sz : ℚ) (l : List Hotspot) :
    ∀ st acc, PipsEq ((tp_loop m sz l st acc).2.1) st := by
  induction l with
  | nil => intro st acc; exact ⟨rfl, rfl⟩
  | cons hs rest ih =>
      intro st acc
      simp only [tp_loop]
      rcases h : tp_step st acc m hs sz with ⟨res, st', acc'⟩
      cases res with
      | error e => exact tp_step_pips2 h
      | ok u => exact (ih st' acc').trans' (tp_step_pips2 h)

theorem tp_loop_pips2 {m : Mount} {sz : ℚ} {l : List Hotspot}
    {st st' : ApiState} {acc acc' : TPAcc} {r : Except HwError Unit}
    (h : tp_loop m sz l st acc = (r, st', acc')) : PipsEq st' st := by
  have := tp_loop_pips m sz l st acc
  rw [h] at this
  exact this

/-- `_do_tp` zeroes the probed pipette's live instrument offset as its first
action and no later step of the probe run modifies any pipette, so on every
exit path the pipette ends with the zero offset. -/
theorem _do_tp_offset (st : ApiState) (m : Mount) (pip : Pipette)
    (hpip : st.pipette m = some pip) :
    (((_do_tp st m).2).pipette m).map (fun p => p.instrument_offset) =
      some ⟨0, 0, 0⟩ := by
  simp only [_do_tp, hpip]
  split
  · rename_i e st' acc' heq
    have hp := tp_loop_pips2 heq
    rw [hp.pipette_eq m]
    simp [Pipette.update_instrument_offset]
  · rename_i u st' acc heq
    have hp := tp_loop_pips2 heq
    split_ifs <;>
      (rw [hp.pipette_eq m]
       simp [Pipette.update_instrument_offset])

theorem _assure_tip_restore_offset (s : ApiState) (m : Mount)
    (old : Option ℚ)
    (h : (s.pipette m).map (fun p => p.instrument_offset) = some ⟨0, 0, 0⟩) :
    ((_assure_tip_restore s m old).pipette m).map
      (fun p => p.instrument_offset) = some ⟨0, 0, 0⟩ := by
  rcases hp : s.pipette m with _ | p
  · rw [hp] at h
    simp at h
  · rw [hp] at h
    simp at h
    simp only [_assure_tip_restore, hp]
    split_ifs <;>
      simp_all [Pipette.add_tip, Pipette.remove_tip]

/-- C10: every `locate_tip_probe_center` call that reaches the probe phase
sets the probed pipette's live instrument offset to the zero point before
probing begins and never restores the previous offset: on every exit path
of both `_do_tp` and `locate_tip_probe_center` the pipette's live offset is
the zero point (the `_assure_tip` scope restores only tip state). -/
theorem C10_offset_zeroed (st : ApiState) (m : Mount) (pip : Pipette)
    (tl : Option ℚ)
    (hpip : st.pipette m = some pip)
    (hreach : truthy tl = true ∨ pip.has_tip = true) :
    (((locate_tip_probe_center st m tl).2).pipette m).map
      (fun p => p.instrument_offset) = some ⟨0, 0, 0⟩ ∧
    (((_do_tp st m).2).pipette m).map
      (fun p => p.instrument_offset) = some ⟨0, 0, 0⟩ := by
  refine ⟨?_, _do_tp_offset st m pip hpip⟩
  simp only [locate_tip_probe_center, hpip]
  split_ifs <;>
    first
    | exact _assure_tip_restore_offset _ m _
        (_do_tp_offset _ m _ (pipette_setPipette_same _ _ _))
    | simp_all [truthy]

/-- Witness for C10 on a homed state whose right pipette carries a tip and
a nonzero live instrument offset: after `locate_tip_probe_center` (and after
`_do_tp` itself) the live offset is the zero point, not the original. -/
theorem C10_witness :
    tipState.pipette .RIGHT = some tipPip ∧
    (truthy none = true ∨ tipPip.has_tip = true) ∧
    tipPip.instrument_offset ≠ ⟨0, 0, 0⟩ ∧
    (((locate_tip_probe_center tipState .RIGHT none).2).pipette .RIGHT).map
      (fun p => p.instrument_offset) = some ⟨0, 0, 0⟩ ∧
    (((_do_tp tipState .RIGHT).2).pipette .RIGHT).map
      (fun p => p.instrument_offset) = some ⟨0, 0, 0⟩ := by
  have h := C10_offset_zeroed tipState .RIGHT tipPip none rfl (Or.inr rfl)
  exact ⟨rfl, Or.inr rfl, by decide, h.1, h.2⟩

/-- C6 (code bug at `locate_tip_probe_center`'s precondition handling):
calling with a pipette that already has a tip *and* a supplied tip length
does not fail — the existing tip is silently removed and the probe proceeds
to completion, returning a center — although the function's own docstring
says "If ``tip_length`` is not ``None``, this function asserts" in that
case.  The original tip is not restored afterwards (the saved state was
recorded after the removal), so the pipette ends without a tip. -/
theorem C6_tip_conflict_not_rejected :
    tipPip.has_tip = true ∧
    truthy (some 50) = true ∧
    (locate_tip_probe_center tipState .RIGHT (some 50)).1 =
      .ok ⟨293, 155, 202⟩ ∧
    (((locate_tip_probe_center tipState .RIGHT (some 50)).2).pipette
      .RIGHT).map (fun p => p.has_tip) = some false :=
  ⟨rfl, rfl, by with_unfolding_all rfl, by with_unfolding_all rfl⟩

/-! Value-level characterization of one tip-probe hotspot iteration under
the identity gantry calibration. -/

@[simp] theorem SmPos.get_set_same (p : SmPos) (ax : Axis) (v : ℚ) :
    (p.set ax v).get ax = v := by cases ax <;> rfl

theorem SmPos.get_set_other (p : SmPos) (ax ax' : Axis) (v : ℚ)
    (h : ax ≠ ax') : (p.set ax v).get ax' = p.get ax' := by
  cases ax <;> cases ax' <;> first | rfl | exact absurd rfl h

theorem moff_congr {s1 s2 : ApiState} (m : Mount)
    (h : s1.config = s2.config) : moff s1 m = moff s2 m := by
  simp [moff, h]

theorem cpoint_congr {s1 s2 : ApiState} (m : Mount)
    (h : s1.pipette m = s2.pipette m) : cpoint s1 m = cpoint s2 m := by
  simp [cpoint, _critical_point_for, h]

/-- `_deck_from_smoothie` with the identity reverse transform is the raw
position itself. -/
theorem deck_id (cfg : Config) (hrev : cfg.gantry_rev = id) (sm : SmPos) :
    _deck_from_smoothie cfg sm = fullCache sm.x sm.y sm.a sm.z sm.b sm.c := by
  rw [_deck_from_smoothie_eq_fullCache, hrev]
  rfl

/-- Successful `move_to` on a full cache, same mount, non-failing backend:
existential form for the approach moves whose exact values are irrelevant. -/
theorem move_to_ok (st : ApiState) (m : Mount) (P : Point)
    (x y a z b c : ℚ)
    (hc : st.cache = fullCache x y a z b c) (hmf : st.move_fails = false)
    (hlast : st.last_moved_mount = some m) :
    ∃ x' y' a' z' b' c',
      (move_to st m P none).1 = .ok () ∧
      ((move_to st m P none).2).cache = fullCache x' y' a' z' b' c' ∧
      ((move_to st m P none).2).move_fails = false ∧
      ((move_to st m P none).2).last_moved_mount = some m ∧
      ((move_to st m P none).2).config = st.config ∧
      (∀ mm, ((move_to st m P none).2).pipette mm = st.pipette mm) := by
  rw [move_to_spec st m P none x y a z b c hc hmf hlast]
  cases m <;>
    exact ⟨_, _, _, _, _, _, rfl, rfl, by simpa using hmf, rfl, rfl,
      fun mm => by cases mm <;> rfl⟩

/-- Successful `move_to` under the identity forward transform: the backend
lands exactly on the target minus the mount and critical-point offsets. -/
theorem move_to_okv (st : ApiState) (m : Mount) (P : Point)
    (x y a z b c : ℚ)
    (hfwd : st.config.gantry_fwd = id)
    (hc : st.cache = fullCache x y a z b c) (hmf : st.move_fails = false)
    (hlast : st.last_moved_mount = some m) :
    (move_to st m P none).1 = .ok () ∧
    ((move_to st m P none).2).backend_pos =
      ((st.backend_pos.set .X (P.x - (moff st m).x - (cpoint st m).x)).set .Y
        (P.y - (moff st m).y - (cpoint st m).y)).set (Axis.by_mount m)
        (P.z - (moff st m).z - (cpoint st m).z) ∧
    ((move_to st m P none).2).config = st.config ∧
    (∀ mm, ((move_to st m P none).2).pipette mm = st.pipette mm) ∧
    ((move_to st m P none).2).move_fails = false ∧
    ((move_to st m P none).2).last_moved_mount = some m := by
  rw [move_to_spec st m P none x y a z b c hc hmf hlast]
  cases m <;>
    refine ⟨rfl, ?_, rfl, fun mm => by cases mm <;> rfl, by simpa using hmf,
      rfl⟩ <;>
    simp [hfwd, moff, cpoint]

theorem cpOffset_eq_moff (st : ApiState) (m : Mount) :
    cpOffset st m = moff st m := by
  cases m <;> simp [cpOffset, moff]

theorem cpOffset_congr {s1 s2 : ApiState} (m : Mount)
    (h : s1.config = s2.config) : cpOffset s1 m = cpOffset s2 m := by
  simp [cpOffset, h]

/-- Equation-style wrapper for `move_to_ok`. -/
theorem move_to_ok2 {st st' : ApiState} {m : Mount} {P : Point}
    {r : Except HwError Unit} (h : move_to st m P none = (r, st'))
    {x y a z b c : ℚ}
    (hc : st.cache = fullCache x y a z b c) (hmf : st.move_fails = false)
    (hlast : st.last_moved_mount = some m) :
    r = .ok () ∧
    (∃ x' y' a' z' b' c', st'.cache = fullCache x' y' a' z' b' c') ∧
    st'.move_fails = false ∧ st'.last_moved_mount = some m ∧
    st'.config = st.config ∧ (∀ mm, st'.pipette mm = st.pipette mm) := by
  obtain ⟨x', y', a', z', b', c', h1, h2, h3, h4, h5, h6⟩ :=
    move_to_ok st m P x y a z b c hc hmf hlast
  rw [h] at h1 h2 h3 h4 h5 h6
  exact ⟨h1, ⟨x', y', a', z', b', c', h2⟩, h3, h4, h5, h6⟩

/-- Equation-style wrapper for `move_to_okv`. -/
theorem move_to_okv2 {st st' : ApiState} {m : Mount} {P : Point}
    {r : Except HwError Unit} (h : move_to st m P none = (r, st'))
    {x y a z b c : ℚ}
    (hfwd : st.config.gantry_fwd = id)
    (hc : st.cache = fullCache x y a z b c) (hmf : st.move_fails = false)
    (hlast : st.last_moved_mount = some m) :
    r = .ok () ∧
    st'.backend_pos =
      ((st.backend_pos.set .X (P.x - (moff st m).x - (cpoint st m).x)).set .Y
        (P.y - (moff st m).y - (cpoint st m).y)).set (Axis.by_mount m)
        (P.z - (moff st m).z - (cpoint st m).z) ∧
    st'.config = st.config ∧ (∀ mm, st'.pipette mm = st.pipette mm) ∧
    st'.move_fails = false ∧ st'.last_moved_mount = some m := by
  obtain ⟨h1, h2, h3, h4, h5, h6⟩ :=
    move_to_okv st m P x y a z b c hfwd hc hmf hlast
  rw [h] at h1 h2 h3 h4 h5 h6
  exact ⟨h1, h2, h3, h4, h5, h6⟩

/-- Equation-style wrapper for `move_rel_ok`. -/
theorem move_rel_ok2 {st st' : ApiState} {m : Mount} {d : Point}
    {r : Except HwError Unit} (h : move_rel st m d = (r, st'))
    {x y a z b c : ℚ}
    (hc : st.cache = fullCache x y a z b c) (hmf : st.move_fails = false)
    (hlast : st.last_moved_mount = some m) :
    r = .ok () ∧
    (∃ x' y' a' z' b' c', st'.cache = fullCache x' y' a' z' b' c') ∧
    st'.move_fails = false ∧ st'.last_moved_mount = some m ∧
    st'.config = st.config ∧ (∀ mm, st'.pipette mm = st.pipette mm) := by
  obtain ⟨x', y', a', z', b', c', sp, h1, h2, h3, h4, h5, h6, -⟩ :=
    move_rel_ok st m d x y a z b c hc hmf hlast
  rw [h] at h1 h2 h3 h4 h5 h6
  exact ⟨h1, ⟨x', y', a', z', b', c', h2⟩, h3, h4, h5, h6⟩

/-- Equation-style wrapper for `gantry_position_spec`. -/
theorem gantry_spec2 {st st' : ApiState} {m : Mount}
    {r : Except HwError Point} {x y a z b c : ℚ}
    (hc : st.cache = fullCache x y a z b c)
    (h : gantry_position st m none = (r, st')) :
    r = .ok ⟨x + (cpOffset st m).x + (_critical_point_for st m none).x,
             y + (cpOffset st m).y + (_critical_point_for st m none).y,
             mountZ m a z + (cpOffset st m).z +
               (_critical_point_for st m none).z⟩ ∧
    st' = st := by
  rw [gantry_position_spec st m x y a z b c hc] at h
  exact ⟨(congrArg Prod.fst h).symm, (congrArg Prod.snd h).symm⟩

theorem cpOffset_left (st : ApiState) :
    cpOffset st .LEFT = st.config.mount_offset := rfl

theorem cpOffset_right (st : ApiState) : cpOffset st .RIGHT = ⟨0, 0, 0⟩ := rfl

theorem moff_left (st : ApiState) :
    moff st .LEFT = st.config.mount_offset := rfl

theorem moff_right (st : ApiState) : moff st .RIGHT = ⟨0, 0, 0⟩ := rfl

/-- One probe iteration on a well-formed state (full cache, non-failing
backend, same mount as last moved, identity gantry calibration): it
succeeds, records exactly the approach coordinate plus the full probe
distance under the hotspot's axis key, and preserves the config, the
pipettes, a full cache, the non-failing backend and the last-moved mount. -/
theorem tp_step_value (st : ApiState) (acc : TPAcc) (m : Mount) (hs : Hotspot)
    (sz x y a z b c : ℚ)
    (hax : hs.axis = .X ∨ hs.axis = .Y ∨ hs.axis = .Z)
    (hfwd : st.config.gantry_fwd = id) (hrev : st.config.gantry_rev = id)
    (hcache : st.cache = fullCache x y a z b c)
    (hmf : st.move_fails = false)
    (hlast : st.last_moved_mount = some m) :
    (tp_step st acc m hs sz).1 = .ok () ∧
    (tp_step st acc m hs sz).2.2 =
      acc.append hs.axis (hotspotMeasured st.config.tip_probe.center acc hs) ∧
    ((tp_step st acc m hs sz).2.1).config = st.config ∧
    (∀ mm, ((tp_step st acc m hs sz).2.1).pipette mm = st.pipette mm) ∧
    (∃ x' y' a' z' b' c',
      ((tp_step st acc m hs sz).2.1).cache = fullCache x' y' a' z' b' c') ∧
    ((tp_step st acc m hs sz).2.1).move_fails = false ∧
    ((tp_step st acc m hs sz).2.1).last_moved_mount = some m := by
  simp only [tp_step]
  rw [current_position_spec st m none x y a z b c hcache]
  simp only []
  rcases hax with hax | hax | hax
  · simp only [hax]
    rw [if_neg (show ¬ (Axis.X = Axis.Z) from by decide)]
    split
    · rename_i e st' heq1
      exact absurd (move_to_ok2 heq1 hcache hmf hlast).1 (by simp)
    · rename_i u1 s1 heq1
      obtain ⟨-, ⟨x1, y1, a1, z1, b1, c1, hc1⟩, hmf1, hlast1, hcfg1, hpip1⟩ :=
        move_to_ok2 heq1 hcache hmf hlast
      split
      · rename_i e st' heq2
        exact absurd (move_to_ok2 heq2 hc1 hmf1 hlast1).1 (by simp)
      · rename_i u2 s2 heq2
        obtain ⟨-, ⟨x2, y2, a2, z2, b2, c2, hc2⟩, hmf2, hlast2, hcfg2, hpip2⟩ :=
          move_to_ok2 heq2 hc1 hmf1 hlast1
        split
        · rename_i e st' heq3
          exact absurd (move_to_okv2 heq3 (by rw [hcfg2, hcfg1]; exact hfwd)
            hc2 hmf2 hlast2).1 (by simp)
        · rename_i u3 s3 heq3
          obtain ⟨-, hbk3, hcfg3, hpip3, hmf3, hlast3⟩ :=
            move_to_okv2 heq3 (by rw [hcfg2, hcfg1]; exact hfwd) hc2 hmf2 hlast2
          have hrev3 : s3.config.gantry_rev = id := by
            rw [hcfg3, hcfg2, hcfg1]; exact hrev
          cases m
          · rw [deck_id s3.config hrev3, hbk3]
            simp only [SmPos.set, SmPos.get, Axis.by_mount]
            split
            · rename_i e st' heq4
              exact absurd (gantry_spec2 rfl heq4).1 (by simp)
            · rename_i xyz s5 heq4
              obtain ⟨hxyz, hst5⟩ := gantry_spec2 rfl heq4
              have hxyz' := Except.ok.inj hxyz
              subst hxyz'
              subst hst5
              split
              · rename_i e st' heq5
                exact absurd (move_rel_ok2 heq5 rfl hmf3 hlast3).1 (by simp)
              · rename_i u6 s6 heq5
                obtain ⟨-, ⟨x6, y6, a6, z6, b6, c6, hc6⟩, hmf6, hlast6, hcfg6,
                    hpip6⟩ := move_rel_ok2 heq5 rfl hmf3 hlast3
                split
                · rename_i e st' heq6
                  exact absurd (move_to_ok2 heq6 hc6 hmf6 hlast6).1 (by simp)
                · rename_i u7 s7 heq6
                  obtain ⟨-, ⟨x7, y7, a7, z7, b7, c7, hc7⟩, hmf7, hlast7, hcfg7,
                      hpip7⟩ := move_to_ok2 heq6 hc6 hmf6 hlast6
                  refine ⟨rfl, ?_, ?_, ?_, ⟨x7, y7, a7, z7, b7, c7, hc7⟩,
                    hmf7, hlast7⟩
                  · congr 1
                    have hp32 : s3.left_pip = s2.left_pip := hpip3 .LEFT
                    simp only [hotspotMeasured, hax, Axis.value, Point.get,
                      cpOffset_left, moff_left, cpoint, _critical_point_for,
                      ApiState.pipette, hcfg3, hp32]
                    ring
                  · rw [hcfg7, hcfg6]
                    exact hcfg3.trans (hcfg2.trans hcfg1)
                  · intro mm
                    rw [hpip7 mm, hpip6 mm]
                    cases mm
                    · exact (hpip3 .LEFT).trans ((hpip2 .LEFT).trans
                        (hpip1 .LEFT))
                    · exact (hpip3 .RIGHT).trans ((hpip2 .RIGHT).trans
                        (hpip1 .RIGHT))
          · rw [deck_id s3.config hrev3, hbk3]
            simp only [SmPos.set, SmPos.get, Axis.by_mount]
            split
            · rename_i e st' heq4
              exact absurd (gantry_spec2 rfl heq4).1 (by simp)
            · rename_i xyz s5 heq4
              obtain ⟨hxyz, hst5⟩ := gantry_spec2 rfl heq4
              have hxyz' := Except.ok.inj hxyz
              subst hxyz'
              subst hst5
              split
              · rename_i e st' heq5
                exact absurd (move_rel_ok2 heq5 rfl hmf3 hlast3).1 (by simp)
              · rename_i u6 s6 heq5
                obtain ⟨-, ⟨x6, y6, a6, z6, b6, c6, hc6⟩, hmf6, hlast6, hcfg6,
                    hpip6⟩ := move_rel_ok2 heq5 rfl hmf3 hlast3
                split
                · rename_i e st' heq6
                  exact absurd (move_to_ok2 heq6 hc6 hmf6 hlast6).1 (by simp)
                · rename_i u7 s7 heq6
                  obtain ⟨-, ⟨x7, y7, a7, z7, b7, c7, hc7⟩, hmf7, hlast7, hcfg7,
                      hpip7⟩ := move_to_ok2 heq6 hc6 hmf6 hlast6
                  refine ⟨rfl, ?_, ?_, ?_, ⟨x7, y7, a7, z7, b7, c7, hc7⟩,
                    hmf7, hlast7⟩
                  · congr 1
                    have hp32 : s3.right_pip = s2.right_pip := hpip3 .RIGHT
                    simp only [hotspotMeasured, hax, Axis.value, Point.get,
                      cpOffset_right, moff_right, cpoint, _critical_point_for,
                      ApiState.pipette, hcfg3, hp32]
                    ring
                  · rw [hcfg7, hcfg6]
                    exact hcfg3.trans (hcfg2.trans hcfg1)
                  · intro mm
                    rw [hpip7 mm, hpip6 mm]
                    cases mm
                    · exact (hpip3 .LEFT).trans ((hpip2 .LEFT).trans
                        (hpip1 .LEFT))
                    · exact (hpip3 .RIGHT).trans ((hpip2 .RIGHT).trans
                        (hpip1 .RIGHT))
  · simp only [hax]
    rw [if_neg (show ¬ (Axis.Y = Axis.Z) from by decide)]
    split
    · rename_i e st' heq1
      exact absurd (move_to_ok2 heq1 hcache hmf hlast).1 (by simp)
    · rename_i u1 s1 heq1
      obtain ⟨-, ⟨x1, y1, a1, z1, b1, c1, hc1⟩, hmf1, hlast1, hcfg1, hpip1⟩ :=
        move_to_ok2 heq1 hcache hmf hlast
      split
      · rename_i e st' heq2
        exact absurd (move_to_ok2 heq2 hc1 hmf1 hlast1).1 (by simp)
      · rename_i u2 s2 heq2
        obtain ⟨-, ⟨x2, y2, a2, z2, b2, c2, hc2⟩, hmf2, hlast2, hcfg2, hpip2⟩ :=
          move_to_ok2 heq2 hc1 hmf1 hlast1
        split
        · rename_i e st' heq3
          exact absurd (move_to_okv2 heq3 (by rw [hcfg2, hcfg1]; exact hfwd)
            hc2 hmf2 hlast2).1 (by simp)
        · rename_i u3 s3 heq3
          obtain ⟨-, hbk3, hcfg3, hpip3, hmf3, hlast3⟩ :=
            move_to_okv2 heq3 (by rw [hcfg2, hcfg1]; exact hfwd) hc2 hmf2 hlast2
          have hrev3 : s3.config.gantry_rev = id := by
            rw [hcfg3, hcfg2, hcfg1]; exact hrev
          cases m
          · rw [deck_id s3.config hrev3, hbk3]
            simp only [SmPos.set, SmPos.get, Axis.by_mount]
            split
            · rename_i e st' heq4
              exact absurd (gantry_spec2 rfl heq4).1 (by simp)
            · rename_i xyz s5 heq4
              obtain ⟨hxyz, hst5⟩ := gantry_spec2 rfl heq4
              have hxyz' := Except.ok.inj hxyz
              subst hxyz'
              subst hst5
              split
              · rename_i e st' heq5
                exact absurd (move_rel_ok2 heq5 rfl hmf3 hlast3).1 (by simp)
              · rename_i u6 s6 heq5
                obtain ⟨-, ⟨x6, y6, a6, z6, b6, c6, hc6⟩, hmf6, hlast6, hcfg6,
                    hpip6⟩ := move_rel_ok2 heq5 rfl hmf3 hlast3
                split
                · rename_i e st' heq6
                  exact absurd (move_to_ok2 heq6 hc6 hmf6 hlast6).1 (by simp)
                · rename_i u7 s7 heq6
                  obtain ⟨-, ⟨x7, y7, a7, z7, b7, c7, hc7⟩, hmf7, hlast7, hcfg7,
                      hpip7⟩ := move_to_ok2 heq6 hc6 hmf6 hlast6
                  refine ⟨rfl, ?_, ?_, ?_, ⟨x7, y7, a7, z7, b7, c7, hc7⟩,
                    hmf7, hlast7⟩
                  · congr 1
                    have hp32 : s3.left_pip = s2.left_pip := hpip3 .LEFT
                    simp only [hotspotMeasured, hax, Axis.value, Point.get,
                      cpOffset_left, moff_left, cpoint, _critical_point_for,
                      ApiState.pipette, hcfg3, hp32]
                    ring
                  · rw [hcfg7, hcfg6]
                    exact hcfg3.trans (hcfg2.trans hcfg1)
                  · intro mm
                    rw [hpip7 mm, hpip6 mm]
                    cases mm
                    · exact (hpip3 .LEFT).trans ((hpip2 .LEFT).trans
                        (hpip1 .LEFT))
                    · exact (hpip3 .RIGHT).trans ((hpip2 .RIGHT).trans
                        (hpip1 .RIGHT))
          · rw [deck_id s3.config hrev3, hbk3]
            simp only [SmPos.set, SmPos.get, Axis.by_mount]
            split
            · rename_i e st' heq4
              exact absurd (gantry_spec2 rfl heq4).1 (by simp)
            · rename_i xyz s5 heq4
              obtain ⟨hxyz, hst5⟩ := gantry_spec2 rfl heq4
              have hxyz' := Except.ok.inj hxyz
              subst hxyz'
              subst hst5
              split
              · rename_i e st' heq5
                exact absurd (move_rel_ok2 heq5 rfl hmf3 hlast3).1 (by simp)
              · rename_i u6 s6 heq5
                obtain ⟨-, ⟨x6, y6, a6, z6, b6, c6, hc6⟩, hmf6, hlast6, hcfg6,
                    hpip6⟩ := move_rel_ok2 heq5 rfl hmf3 hlast3
                split
                · rename_i e st' heq6
                  exact absurd (move_to_ok2 heq6 hc6 hmf6 hlast6).1 (by simp)
                · rename_i u7 s7 heq6
                  obtain ⟨-, ⟨x7, y7, a7, z7, b7, c7, hc7⟩, hmf7, hlast7, hcfg7,
                      hpip7⟩ := move_to_ok2 heq6 hc6 hmf6 hlast6
                  refine ⟨rfl, ?_, ?_, ?_, ⟨x7, y7, a7, z7, b7, c7, hc7⟩,
                    hmf7, hlast7⟩
                  · congr 1
                    have hp32 : s3.right_pip = s2.right_pip := hpip3 .RIGHT
                    simp only [hotspotMeasured, hax, Axis.value, Point.get,
                      cpOffset_right, moff_right, cpoint, _critical_point_for,
                      ApiState.pipette, hcfg3, hp32]
                    ring
                  · rw [hcfg7, hcfg6]
                    exact hcfg3.trans (hcfg2.trans hcfg1)
                  · intro mm
                    rw [hpip7 mm, hpip6 mm]
                    cases mm
                    · exact (hpip3 .LEFT).trans ((hpip2 .LEFT).trans
                        (hpip1 .LEFT))
                    · exact (hpip3 .RIGHT).trans ((hpip2 .RIGHT).trans
                        (hpip1 .RIGHT))
  · simp only [hax]
    rw [if_pos trivial]
    split
    · rename_i e st' heq1
      exact absurd (move_to_ok2 heq1 hcache hmf hlast).1 (by simp)
    · rename_i u1 s1 heq1
      obtain ⟨-, ⟨x1, y1, a1, z1, b1, c1, hc1⟩, hmf1, hlast1, hcfg1, hpip1⟩ :=
        move_to_ok2 heq1 hcache hmf hlast
      split
      · rename_i e st' heq2
        exact absurd (move_to_ok2 heq2 hc1 hmf1 hlast1).1 (by simp)
      · rename_i u2 s2 heq2
        obtain ⟨-, ⟨x2, y2, a2, z2, b2, c2, hc2⟩, hmf2, hlast2, hcfg2, hpip2⟩ :=
          move_to_ok2 heq2 hc1 hmf1 hlast1
        split
        · rename_i e st' heq3
          exact absurd (move_to_okv2 heq3 (by rw [hcfg2, hcfg1]; exact hfwd)
            hc2 hmf2 hlast2).1 (by simp)
        · rename_i u3 s3 heq3
          obtain ⟨-, hbk3, hcfg3, hpip3, hmf3, hlast3⟩ :=
            move_to_okv2 heq3 (by rw [hcfg2, hcfg1]; exact hfwd) hc2 hmf2 hlast2
          have hrev3 : s3.config.gantry_rev = id := by
            rw [hcfg3, hcfg2, hcfg1]; exact hrev
          cases m
          · rw [deck_id s3.config hrev3, hbk3]
            simp only [SmPos.set, SmPos.get, Axis.by_mount]
            split
            · rename_i e st' heq4
              exact absurd (gantry_spec2 rfl heq4).1 (by simp)
            · rename_i xyz s5 heq4
              obtain ⟨hxyz, hst5⟩ := gantry_spec2 rfl heq4
              have hxyz' := Except.ok.inj hxyz
              subst hxyz'
              subst hst5
              split
              · rename_i e st' heq5
                exact absurd (move_rel_ok2 heq5 rfl hmf3 hlast3).1 (by simp)
              · rename_i u6 s6 heq5
                obtain ⟨-, ⟨x6, y6, a6, z6, b6, c6, hc6⟩, hmf6, hlast6, hcfg6,
                    hpip6⟩ := move_rel_ok2 heq5 rfl hmf3 hlast3
                split
                · rename_i e st' heq6
                  exact absurd (move_to_ok2 heq6 hc6 hmf6 hlast6).1 (by simp)
                · rename_i u7 s7 heq6
                  obtain ⟨-, ⟨x7, y7, a7, z7, b7, c7, hc7⟩, hmf7, hlast7, hcfg7,
                      hpip7⟩ := move_to_ok2 heq6 hc6 hmf6 hlast6
                  refine ⟨rfl, ?_, ?_, ?_, ⟨x7, y7, a7, z7, b7, c7, hc7⟩,
                    hmf7, hlast7⟩
                  · congr 1
                    have hp32 : s3.left_pip = s2.left_pip := hpip3 .LEFT
                    simp only [hotspotMeasured, hax, Axis.value, Point.get, mountZ,
                      cpOffset_left, moff_left, cpoint, _critical_point_for,
                      ApiState.pipette, hcfg3, hp32]
                    ring
                  · rw [hcfg7, hcfg6]
                    exact hcfg3.trans (hcfg2.trans hcfg1)
                  · intro mm
                    rw [hpip7 mm, hpip6 mm]
                    cases mm
                    · exact (hpip3 .LEFT).trans ((hpip2 .LEFT).trans
                        (hpip1 .LEFT))
                    · exact (hpip3 .RIGHT).trans ((hpip2 .RIGHT).trans
                        (hpip1 .RIGHT))
          · rw [deck_id s3.config hrev3, hbk3]
            simp only [SmPos.set, SmPos.get, Axis.by_mount]
            split
            · rename_i e st' heq4
              exact absurd (gantry_spec2 rfl heq4).1 (by simp)
            · rename_i xyz s5 heq4
              obtain ⟨hxyz, hst5⟩ := gantry_spec2 rfl heq4
              have hxyz' := Except.ok.inj hxyz
              subst hxyz'
              subst hst5
              split
              · rename_i e st' heq5
                exact absurd (move_rel_ok2 heq5 rfl hmf3 hlast3).1 (by simp)
              · rename_i u6 s6 heq5
                obtain ⟨-, ⟨x6, y6, a6, z6, b6, c6, hc6⟩, hmf6, hlast6, hcfg6,
                    hpip6⟩ := move_rel_ok2 heq5 rfl hmf3 hlast3
                split
                · rename_i e st' heq6
                  exact absurd (move_to_ok2 heq6 hc6 hmf6 hlast6).1 (by simp)
                · rename_i u7 s7 heq6
                  obtain ⟨-, ⟨x7, y7, a7, z7, b7, c7, hc7⟩, hmf7, hlast7, hcfg7,
                      hpip7⟩ := move_to_ok2 heq6 hc6 hmf6 hlast6
                  refine ⟨rfl, ?_, ?_, ?_, ⟨x7, y7, a7, z7, b7, c7, hc7⟩,
                    hmf7, hlast7⟩
                  · congr 1
                    have hp32 : s3.right_pip = s2.right_pip := hpip3 .RIGHT
                    simp only [hotspotMeasured, hax, Axis.value, Point.get, mountZ,
                      cpOffset_right, moff_right, cpoint, _critical_point_for,
                      ApiState.pipette, hcfg3, hp32]
                    ring
                  · rw [hcfg7, hcfg6]
                    exact hcfg3.trans (hcfg2.trans hcfg1)
                  · intro mm
                    rw [hpip7 mm, hpip6 mm]
                    cases mm
                    · exact (hpip3 .LEFT).trans ((hpip2 .LEFT).trans
                        (hpip1 .LEFT))
                    · exact (hpip3 .RIGHT).trans ((hpip2 .RIGHT).trans
                        (hpip1 .RIGHT))

/-- Equation-style wrapper for `tp_step_value`. -/
theorem tp_step_value2 {st st' : ApiState} {acc acc' : TPAcc} {m : Mount}
    {hs : Hotspot} {sz : ℚ} {r : Except HwError Unit}
    (h : tp_step st acc m hs sz = (r, st', acc'))
    (hax : hs.axis = .X ∨ hs.axis = .Y ∨ hs.axis = .Z)
    (hfwd : st.config.gantry_fwd = id) (hrev : st.config.gantry_rev = id)
    (hcache : ∃ x y a z b c, st.cache = fullCache x y a z b c)
    (hmf : st.move_fails = false) (hlast : st.last_moved_mount = some m) :
    r = .ok () ∧
    acc' = acc.append hs.axis
      (hotspotMeasured st.config.tip_probe.center acc hs) ∧
    st'.config = st.config ∧ (∀ mm, st'.pipette mm = st.pipette mm) ∧
    (∃ x' y' a' z' b' c', st'.cache = fullCache x' y' a' z' b' c') ∧
    st'.move_fails = false ∧ st'.last_moved_mount = some m := by
  obtain ⟨x, y, a, z, b, c, hc⟩ := hcache
  obtain ⟨h1, h2, h3, h4, h5, h6, h7⟩ :=
    tp_step_value st acc m hs sz x y a z b c hax hfwd hrev hc hmf hlast
  rw [h] at h1 h2 h3 h4 h5 h6 h7
  exact ⟨h1, h2, h3, h4, h5, h6, h7⟩

/-- The hotspot loop on a well-formed state succeeds and builds exactly the
measured accumulator, preserving the config and the pipettes. -/
theorem tp_loop_value (m : Mount) (sz : ℚ) (hss : List Hotspot) :
    ∀ (st : ApiState) (acc : TPAcc),
    (∀ hs ∈ hss, hs.axis = .X ∨ hs.axis = .Y ∨ hs.axis = .Z) →
    st.config.gantry_fwd = id → st.config.gantry_rev = id →
    (∃ x y a z b c, st.cache = fullCache x y a z b c) →
    st.move_fails = false → st.last_moved_mount = some m →
    (tp_loop m sz hss st acc).1 = .ok () ∧
    (tp_loop m sz hss st acc).2.2 =
      measuredAcc st.config.tip_probe.center acc hss ∧
    ((tp_loop m sz hss st acc).2.1).config = st.config ∧
    (∀ mm, ((tp_loop m sz hss st acc).2.1).pipette mm = st.pipette mm) := by
  induction hss with
  | nil =>
      intro st acc _ _ _ _ _ _
      exact ⟨rfl, rfl, rfl, fun mm => rfl⟩
  | cons hs rest ih =>
      intro st acc hax hfwd hrev hcache hmf hlast
      simp only [tp_loop]
      split
      · rename_i e st' acc' heq
        obtain ⟨h1, -⟩ :=
          tp_step_value2 heq (hax hs (by simp)) hfwd hrev hcache hmf hlast
        exact absurd h1 (by simp)
      · rename_i u st' acc' heq
        obtain ⟨-, hacc, hcfg, hpip, hcache', hmf', hlast'⟩ :=
          tp_step_value2 heq (hax hs (by simp)) hfwd hrev hcache hmf hlast
        obtain ⟨ih1, ih2, ih3, ih4⟩ := ih st' acc'
          (fun h hm => hax h (by simp [hm]))
          (by rw [hcfg]; exact hfwd) (by rw [hcfg]; exact hrev)
          hcache' hmf' hlast'
        refine ⟨ih1, ?_, ih3.trans hcfg, fun mm => (ih4 mm).trans (hpip mm)⟩
        rw [ih2, hcfg, hacc]
        simp only [measuredAcc]

/-- The measured accumulator over one standard five-hotspot pattern: two X
hotspots, two Y hotspots, one Z hotspot. No running mean is ever used to
place them: at each X or Y hotspot at most one measurement exists for its
axis, so the nominal center places every approach. -/
theorem measuredAcc_c9 (N : Point) (h1 h2 h3 h4 h5 : Hotspot)
    (hx1 : h1.axis = .X) (hx2 : h2.axis = .X)
    (hy1 : h3.axis = .Y) (hy2 : h4.axis = .Y) (hz : h5.axis = .Z) :
    measuredAcc N ⟨[], [], []⟩ [h1, h2, h3, h4, h5] =
      ⟨[N.x + h1.x_start_offs + h1.probe_distance,
        N.x + h2.x_start_offs + h2.probe_distance],
       [N.y + h3.y_start_offs + h3.probe_distance,
        N.y + h4.y_start_offs + h4.probe_distance],
       [h5.z_start_abs + h5.probe_distance]⟩ := by
  simp [measuredAcc, hotspotMeasured, hx1, hx2, hy1, hy2, hz,
    overridden_center, TPAcc.append, TPAcc.get, Axis.value, Point.get]

/-- C9 (amended): the running best-estimate center used to place a hotspot
is, per axis, the mean of the collected measurements only when exactly two
have been collected — with zero or one collected it is the nominal
configured center — and the final measured center is the per-axis
arithmetic mean of all recorded coordinates; with mirrored X and Y hotspot
pairs, a Z hotspot aimed at the nominal center, a noiseless simulated probe
and the identity gantry calibration, the measured center equals the nominal
center exactly. -/
theorem C9_symmetric_probe (st : ApiState) (m : Mount) (pip : Pipette)
    (h1 h2 h3 h4 h5 : Hotspot)
    (hpip : st.pipette m = some pip)
    (hhs : st.config.tip_probe.hotspots pip.current_tip_length =
      [h1, h2, h3, h4, h5])
    (hfwd : st.config.gantry_fwd = id) (hrev : st.config.gantry_rev = id)
    (hcache : ∃ x y a z b c, st.cache = fullCache x y a z b c)
    (hmf : st.move_fails = false) (hlast : st.last_moved_mount = some m)
    (hx1 : h1.axis = .X) (hx2 : h2.axis = .X)
    (hy1 : h3.axis = .Y) (hy2 : h4.axis = .Y) (hz : h5.axis = .Z)
    (hmx : h2.x_start_offs + h2.probe_distance =
      -(h1.x_start_offs + h1.probe_distance))
    (hmy : h4.y_start_offs + h4.probe_distance =
      -(h3.y_start_offs + h3.probe_distance))
    (hmz : h5.z_start_abs + h5.probe_distance = st.config.tip_probe.center.z) :
    (_do_tp st m).1 = .ok st.config.tip_probe.center := by
  obtain ⟨x, y, a, z, b, c, hc⟩ := hcache
  simp only [_do_tp, hpip, setPipette_config, hhs]
  have haxs : ∀ hsx ∈ [h1, h2, h3, h4, h5],
      hsx.axis = Axis.X ∨ hsx.axis = Axis.Y ∨ hsx.axis = Axis.Z := by
    intro hsx hmem
    simp only [List.mem_cons, List.not_mem_nil, or_false] at hmem
    rcases hmem with h | h | h | h | h <;> subst h
    · exact Or.inl hx1
    · exact Or.inl hx2
    · exact Or.inr (Or.inl hy1)
    · exact Or.inr (Or.inl hy2)
    · exact Or.inr (Or.inr hz)
  obtain ⟨l1, l2, -, -⟩ := tp_loop_value m
    (st.config.tip_probe.crossover_clearance + st.config.tip_probe.center.z)
    [h1, h2, h3, h4, h5]
    (st.setPipette m (pip.update_instrument_offset ⟨0, 0, 0⟩)) ⟨[], [], []⟩
    haxs (by simpa using hfwd) (by simpa using hrev)
    ⟨x, y, a, z, b, c, by simpa using hc⟩ (by simpa using hmf)
    (by simpa using hlast)
  rw [setPipette_config] at l2
  split
  · rename_i e st' u heq
    rw [heq] at l1
    exact absurd l1 (by simp)
  · rename_i u st' acc heq
    rw [heq] at l2
    simp only [] at l2
    rw [measuredAcc_c9 _ _ _ _ _ _ hx1 hx2 hy1 hy2 hz] at l2
    subst l2
    simp only [List.length_cons, List.length_nil]
    rw [if_neg (by norm_num)]
    have hN : st.config.tip_probe.center =
        ⟨st.config.tip_probe.center.x, st.config.tip_probe.center.y,
         st.config.tip_probe.center.z⟩ := rfl
    rw [Except.ok.injEq, hN, Point.mk.injEq]
    refine ⟨?_, ?_, ?_⟩
    · simp [mean]
      linarith [hmx]
    · simp [mean]
      linarith [hmy]
    · simp [mean]
      linarith [hmz]

/-- C9 counterexample: with one X measurement (value 5) collected and a
nominal center at 0, the spec's rule places the next X hotspot from the
mean 5, but the code's `overridden_center` still uses the nominal 0: the
running center uses the mean only when exactly two measurements have been
collected, not for "any measurements already collected". -/
theorem C9_counterexample :
    overridden_center ⟨0, 0, 0⟩ ⟨[5], [], []⟩ .X = 0 ∧
    spec_running_center ⟨0, 0, 0⟩ ⟨[5], [], []⟩ .X = 5 ∧
    overridden_center ⟨0, 0, 0⟩ ⟨[5], [], []⟩ .X ≠
      spec_running_center ⟨0, 0, 0⟩ ⟨[5], [], []⟩ .X := by
  refine ⟨rfl, ?_, ?_⟩
  · norm_num [spec_running_center, mean, TPAcc.get]
  · norm_num [spec_running_center, overridden_center, mean, TPAcc.get,
      Point.get, Axis.value]

/-- Witness for C9 on the standard five-hotspot pattern around the nominal
center (293, 155, 202) with the identity calibration: the probe returns
exactly the nominal center. -/
theorem C9_witness :
    (_do_tp tipState .RIGHT).1 = .ok (⟨293, 155, 202⟩ : Point) :=
  C9_symmetric_probe tipState .RIGHT tipPip
    ⟨.X, -25, 0, 180, 50⟩ ⟨.X, 25, 0, 180, -50⟩
    ⟨.Y, 0, -30, 180, 60⟩ ⟨.Y, 0, 30, 180, -60⟩ ⟨.Z, 0, 0, 222, -20⟩
    rfl rfl rfl rfl ⟨418, 353, 218, 218, 19, 19, by with_unfolding_all rfl⟩
    rfl rfl rfl rfl rfl rfl rfl (by norm_num) (by norm_num)
    (by norm_num [tipState, baseState, idConfig])

end OT
